import Mathlib

/-
  Verification of the event-driven graph synchronizer and route optimization
  services of the cxt-skunkworks TMS repository.

  The embedding models:
  - property values stored on graph nodes, edges and in event payloads (Val),
  - the Neo4j graph as lists of labelled nodes and typed edges, with the
    Cypher MERGE / MATCH-SET / DELETE primitives used by the repository
    (repositories/neo4j_repository.py),
  - the event envelope and the dispatch of GraphSyncService.handle_event
    (services/graph_sync_service.py),
  - the Kafka consumer dispatch loop (kafka/consumer.py),
  - the advanced optimizer scoring and failure paths
    (services/advanced_route_optimization.py),
  - the straight-line route fallback (services/route_optimization.py).
-/

namespace TMS

/-- Property values: strings, exact rationals standing for Python floats,
booleans, lists of strings, and null (Python None / missing Cypher value). -/
inductive Val where
  | str (s : String)
  | num (q : ℚ)
  | bool (b : Bool)
  | vlist (xs : List String)
  | null
  deriving DecidableEq

/-- Python truthiness of a value, as used by conditions such as
the line if load_id: in graph_sync_service.py. -/
def Val.truthy : Val → Bool
  | .str s => decide (s ≠ "")
  | .num q => decide (q ≠ 0)
  | .bool b => b
  | .vlist xs => decide (xs ≠ [])
  | .null => false

/-- Python str() applied to a payload value, as in str(load_id). Ids in the
payloads are strings, so only the first branch is exercised. -/
def Val.asId : Val → String
  | .str s => s
  | .num q => toString q
  | .bool b => toString b
  | .vlist _ => "list"
  | .null => "None"

/-- A property map, modelling both Neo4j node/edge properties and the
payload dictionary of an event. -/
abbrev Props := List (String × Val)

/-- First value stored under a key, none when the key is absent
(Python dict.get with no default). -/
def getVal : Props → String → Option Val
  | [], _ => none
  | (k', v) :: rest, k => if k' = k then some v else getVal rest k

/-- Python dict.get(key, default): the default applies only when the key is
absent, not when it is present with value None. -/
def dgetD (ps : Props) (k : String) (d : Val) : Val :=
  (getVal ps k).getD d

/-- Python dict.get(key): none becomes the null value. -/
def dget (ps : Props) (k : String) : Val :=
  dgetD ps k .null

/-- Store a value under a key: replace the first occurrence in place,
append when absent (Cypher SET of a single property). -/
def setVal : Props → String → Val → Props
  | [], k, v => [(k, v)]
  | (k', v') :: rest, k, v =>
      if k' = k then (k, v) :: rest else (k', v') :: setVal rest k v

/-- Apply a list of SET assignments left to right. -/
def setVals (ps : Props) (kvs : Props) : Props :=
  kvs.foldl (fun acc kv => setVal acc kv.1 kv.2) ps

@[simp]
theorem setVals_nil (ps : Props) : setVals ps [] = ps := rfl

@[simp]
theorem setVals_cons (ps : Props) (k : String) (v : Val) (kvs : Props) :
    setVals ps ((k, v) :: kvs) = setVals (setVal ps k v) kvs := rfl

theorem setVals_append (ps kvs₁ kvs₂ : Props) :
    setVals ps (kvs₁ ++ kvs₂) = setVals (setVals ps kvs₁) kvs₂ := by
  simp [setVals, List.foldl_append]

theorem getVal_setVal_self (ps : Props) (k : String) (v : Val) :
    getVal (setVal ps k v) k = some v := by
  induction ps with
  | nil => simp [setVal, getVal]
  | cons kv rest ih =>
      by_cases h : kv.1 = k
      · simp [setVal, getVal, h]
      · simp [setVal, getVal, h, ih]

theorem getVal_setVal_ne (ps : Props) (k k' : String) (v : Val) (h : k' ≠ k) :
    getVal (setVal ps k' v) k = getVal ps k := by
  induction ps with
  | nil => simp [setVal, getVal, h]
  | cons kv rest ih =>
      by_cases hk : kv.1 = k'
      · simp [setVal, getVal, hk, h]
      · simp only [setVal, hk, if_false]
        by_cases hk2 : kv.1 = k
        · simp [getVal, hk2]
        · simp [getVal, hk2, ih]

theorem setVal_id_of_getVal (ps : Props) (k : String) (v : Val)
    (h : getVal ps k = some v) : setVal ps k v = ps := by
  induction ps with
  | nil => simp [getVal] at h
  | cons kv rest ih =>
      obtain ⟨k1, v1⟩ := kv
      by_cases hk : k1 = k
      · subst hk
        simp only [getVal, if_true, eq_self_iff_true, Option.some.injEq] at h
        subst h
        simp [setVal]
      · simp only [getVal, hk, if_false] at h
        simp [setVal, hk, ih h]

theorem setVal_setVal (ps : Props) (k : String) (v₁ v₂ : Val) :
    setVal (setVal ps k v₁) k v₂ = setVal ps k v₂ := by
  induction ps with
  | nil => simp [setVal]
  | cons kv rest ih =>
      by_cases hk : kv.1 = k
      · simp [setVal, hk]
      · simp [setVal, hk, ih]

theorem setVal_comm_of_getVal (ps : Props) (k k' : String) (v v' w : Val)
    (hne : k ≠ k') (h : getVal ps k' = some w) :
    setVal (setVal ps k v) k' v' = setVal (setVal ps k' v') k v := by
  induction ps with
  | nil => simp [getVal] at h
  | cons kv rest ih =>
      obtain ⟨k1, v1⟩ := kv
      by_cases h1 : k1 = k
      · subst h1
        have h2 : k1 ≠ k' := hne
        simp only [getVal, h2, if_false] at h
        simp [setVal, h2, hne, hne.symm]
      · by_cases h2 : k1 = k'
        · subst h2
          simp [setVal, h1, hne, hne.symm]
        · simp only [getVal, h2, if_false] at h
          simp [setVal, h1, h2, ih h]

theorem setVals_id_of_getVal (kvs ps : Props)
    (h : ∀ kv ∈ kvs, getVal ps kv.1 = some kv.2) : setVals ps kvs = ps := by
  induction kvs with
  | nil => rfl
  | cons kv rest ih =>
      have h1 := h kv (List.mem_cons_self kv rest)
      rw [setVals_cons, setVal_id_of_getVal ps kv.1 kv.2 h1]
      exact ih fun kv' hkv' => h kv' (List.mem_cons_of_mem kv hkv')

theorem getVal_setVals_not_mem (kvs ps : Props) (k : String)
    (h : k ∉ kvs.map Prod.fst) : getVal (setVals ps kvs) k = getVal ps k := by
  induction kvs generalizing ps with
  | nil => rfl
  | cons kv rest ih =>
      simp only [List.map_cons, List.mem_cons] at h
      push_neg at h
      rw [setVals_cons, ih (setVal ps kv.1 kv.2) h.2,
        getVal_setVal_ne ps k kv.1 kv.2 (Ne.symm h.1)]

theorem getVal_setVals_mem (kvs ps : Props) (k : String) (v : Val)
    (hnd : (kvs.map Prod.fst).Nodup) (hmem : (k, v) ∈ kvs) :
    getVal (setVals ps kvs) k = some v := by
  induction kvs generalizing ps with
  | nil => simp at hmem
  | cons kv rest ih =>
      simp only [List.map_cons, List.nodup_cons] at hnd
      rcases List.mem_cons.mp hmem with heq | hmem'
      · cases heq
        rw [setVals_cons, getVal_setVals_not_mem rest _ k hnd.1,
          getVal_setVal_self]
      · rw [setVals_cons]
        exact ih (setVal ps kv.1 kv.2) hnd.2 hmem'

theorem setVals_setVals_self (kvs ps : Props)
    (hnd : (kvs.map Prod.fst).Nodup) :
    setVals (setVals ps kvs) kvs = setVals ps kvs := by
  apply setVals_id_of_getVal
  intro kv hkv
  exact getVal_setVals_mem kvs ps kv.1 kv.2 hnd hkv

/-- A graph node: label (Load, Driver, Vehicle, Carrier, Customer, Route),
the natural-id property used as the MERGE key, and the remaining properties. -/
structure Node where
  label : String
  id : String
  props : Props
  deriving DecidableEq

/-- A graph relationship between two nodes identified by label and id. -/
structure Edge where
  relType : String
  fromLabel : String
  fromId : String
  toLabel : String
  toId : String
  props : Props
  deriving DecidableEq

/-- The Neo4j graph state. -/
structure Graph where
  nodes : List Node
  edges : List Edge
  deriving DecidableEq

def emptyGraph : Graph := ⟨[], []⟩

def nodeMatches (n : Node) (label id : String) : Bool :=
  n.label == label && n.id == id

def nodeExists (g : Graph) (label id : String) : Bool :=
  g.nodes.any fun n => nodeMatches n label id

def findNode (g : Graph) (label id : String) : Option Node :=
  g.nodes.find? fun n => nodeMatches n label id

/-- Property of the first node carrying the given label and id. -/
def getNodeProp (g : Graph) (label id k : String) : Option Val :=
  (findNode g label id).bind fun n => getVal n.props k

/-- Cypher MERGE (n:Label \x7bid: $id\x7d) ON CREATE SET ...: create the node
with the given initial properties when no node with that label and id
exists, otherwise leave the graph unchanged. -/
def mergeNode (label id : String) (onCreate : Props) (g : Graph) : Graph :=
  if nodeExists g label id then g
  else ⟨g.nodes ++ [⟨label, id, onCreate⟩], g.edges⟩

/-- Cypher MATCH (n:Label \x7bid: $id\x7d) SET n.k = v, ...: update every
matching node in place; when no node matches, nothing happens. -/
def matchSetNode (label id : String) (kvs : Props) (g : Graph) : Graph :=
  ⟨g.nodes.map fun n =>
      if nodeMatches n label id then { n with props := setVals n.props kvs }
      else n,
    g.edges⟩

def edgeMatches (e : Edge) (t fl fi tl ti : String) : Bool :=
  e.relType == t && e.fromLabel == fl && e.fromId == fi &&
    e.toLabel == tl && e.toId == ti

def edgeExists (g : Graph) (t fl fi tl ti : String) : Bool :=
  g.edges.any fun e => edgeMatches e t fl fi tl ti

def findEdge (g : Graph) (t fl fi tl ti : String) : Option Edge :=
  g.edges.find? fun e => edgeMatches e t fl fi tl ti

def getEdgeProp (g : Graph) (t fl fi tl ti k : String) : Option Val :=
  (findEdge g t fl fi tl ti).bind fun e => getVal e.props k

/-- Cypher MATCH (a), (b) MERGE (a)-[r:T]->(b) SET r.k = v: when both
endpoint nodes exist, merge the edge (create it when absent) and apply the
SET assignments to every matching edge; when either endpoint is missing the
MATCH yields no rows and nothing happens. -/
def mergeEdgeSet (t fl fi tl ti : String) (kvs : Props) (g : Graph) : Graph :=
  if nodeExists g fl fi && nodeExists g tl ti then
    let g1 : Graph :=
      if edgeExists g t fl fi tl ti then g
      else ⟨g.nodes, g.edges ++ [⟨t, fl, fi, tl, ti, []⟩]⟩
    ⟨g1.nodes,
      g1.edges.map fun e =>
        if edgeMatches e t fl fi tl ti then { e with props := setVals e.props kvs }
        else e⟩
  else g

/-- The Cypher pattern MERGE (n) ON CREATE SET ... SET ...: ensure the node
exists (with the ON CREATE properties when freshly created) and then apply
the unconditional SET assignments to it. -/
def upsertNode (l i : String) (onCreate kvs : Props) (g : Graph) : Graph :=
  matchSetNode l i kvs (mergeNode l i onCreate g)

/-- Repository mutations of repositories/neo4j_repository.py. The parameter
now stands for the wall-clock value produced by the Cypher datetime() call
and by datetime.utcnow().isoformat(); timestamps passed by the caller are
already ISO strings (datetime.isoformat is modelled as the identity). -/
def create_load_node (now : String) (load_id : String)
    (customer_id pickup_location delivery_location weight status : Val)
    (created_at : Option String) (g : Graph) : Graph :=
  upsertNode "Load" load_id []
    [("customer_id", customer_id),
     ("pickup_location", pickup_location),
     ("delivery_location", delivery_location),
     ("weight", weight),
     ("status", status),
     ("created_at", match created_at with | some t => .str t | none => .null),
     ("updated_at", .str now)]
    g

def update_load_status (now : String) (load_id : String) (status : String)
    (delivered_at cancelled_at : Option String) (g : Graph) : Graph :=
  matchSetNode "Load" load_id
    ([("status", .str status), ("updated_at", .str now)] ++
      (match delivered_at with | some t => [("delivered_at", Val.str t)] | none => []) ++
      (match cancelled_at with | some t => [("cancelled_at", Val.str t)] | none => []))
    g

/-- MATCH (l:Load \x7bid: $load_id\x7d)-[r:ASSIGNED_TO|TRANSPORTS]->() DELETE r:
deletes exactly the matching relationships that point OUT of the Load node. -/
def remove_load_assignments (load_id : String) (g : Graph) : Graph :=
  ⟨g.nodes,
    g.edges.filter fun e =>
      !(e.fromLabel == "Load" && e.fromId == load_id &&
        (e.relType == "ASSIGNED_TO" || e.relType == "TRANSPORTS"))⟩

def create_driver_node_if_not_exists (now : String) (driver_id : String)
    (g : Graph) : Graph :=
  upsertNode "Driver" driver_id [("created_at", .str now)]
    [("updated_at", .str now)] g

def update_driver_status (now : String) (driver_id : String) (status : Val)
    (updated_at : Option String) (g : Graph) : Graph :=
  matchSetNode "Driver" driver_id
    [("status", status), ("updated_at", .str (updated_at.getD now))] g

def update_driver_location (now : String) (driver_id : String)
    (latitude longitude : ℚ) (updated_at : Option String) (g : Graph) : Graph :=
  matchSetNode "Driver" driver_id
    [("latitude", .num latitude), ("longitude", .num longitude),
     ("location_updated_at", .str (updated_at.getD now))] g

def create_vehicle_node_if_not_exists (now : String) (vehicle_id : String)
    (g : Graph) : Graph :=
  upsertNode "Vehicle" vehicle_id [("created_at", .str now)]
    [("updated_at", .str now)] g

def update_vehicle_status (now : String) (vehicle_id : String) (status : Val)
    (updated_at : Option String) (g : Graph) : Graph :=
  matchSetNode "Vehicle" vehicle_id
    [("status", status), ("updated_at", .str (updated_at.getD now))] g

/-- MATCH-based location write: unlike the driver handlers, no node is
created when the vehicle id has never been seen. -/
def update_vehicle_location (now : String) (vehicle_id : String)
    (latitude longitude : ℚ) (updated_at : Option String) (g : Graph) : Graph :=
  matchSetNode "Vehicle" vehicle_id
    [("latitude", .num latitude), ("longitude", .num longitude),
     ("location_updated_at", .str (updated_at.getD now))] g

def create_route_node (now : String) (route_id : String) (load_id : Val)
    (distance duration : Val) (optimized_at : Option String) (g : Graph) : Graph :=
  upsertNode "Route" route_id []
    [("load_id", load_id),
     ("distance", distance),
     ("duration", duration),
     ("optimized_at", match optimized_at with | some t => .str t | none => .null),
     ("status", .str "ACTIVE"),
     ("updated_at", .str now)]
    g

def update_route_status (now : String) (route_id : String) (status : String)
    (completed_at : Option String) (g : Graph) : Graph :=
  matchSetNode "Route" route_id
    ([("status", .str status), ("updated_at", .str now)] ++
      (match completed_at with | some t => [("completed_at", Val.str t)] | none => []))
    g

def create_customer_load_relationship (customer_id load_id : String)
    (g : Graph) : Graph :=
  mergeEdgeSet "ORDERS" "Customer" customer_id "Load" load_id [] g

def create_driver_load_assignment (now : String) (driver_id load_id : String)
    (assigned_at : Option String) (g : Graph) : Graph :=
  mergeEdgeSet "ASSIGNED_TO" "Driver" driver_id "Load" load_id
    [("assigned_at", .str (assigned_at.getD now))] g

def create_vehicle_load_assignment (now : String) (vehicle_id load_id : String)
    (assigned_at : Option String) (g : Graph) : Graph :=
  mergeEdgeSet "TRANSPORTS" "Vehicle" vehicle_id "Load" load_id
    [("assigned_at", .str (assigned_at.getD now))] g

def create_driver_vehicle_relationship (now : String) (driver_id vehicle_id : String)
    (assigned_at : Option String) (g : Graph) : Graph :=
  mergeEdgeSet "DRIVES" "Driver" driver_id "Vehicle" vehicle_id
    [("assigned_at", .str (assigned_at.getD now))] g

def create_vehicle_carrier_relationship (vehicle_id carrier_id : String)
    (g : Graph) : Graph :=
  mergeEdgeSet "OWNED_BY" "Vehicle" vehicle_id "Carrier" carrier_id [] g

def create_route_load_relationship (route_id load_id : String) (g : Graph) : Graph :=
  mergeEdgeSet "OPTIMIZES" "Route" route_id "Load" load_id [] g

def create_route_driver_relationship (route_id driver_id : String) (g : Graph) : Graph :=
  mergeEdgeSet "EXECUTED_BY" "Route" route_id "Driver" driver_id [] g

def create_route_vehicle_relationship (route_id vehicle_id : String) (g : Graph) : Graph :=
  mergeEdgeSet "USES_VEHICLE" "Route" route_id "Vehicle" vehicle_id [] g

/-- The closed enumeration of domain event types (models/events.py). -/
inductive EventType where
  | LOAD_CREATED | LOAD_ASSIGNED | LOAD_PICKED_UP | LOAD_IN_TRANSIT
  | LOAD_DELIVERED | LOAD_CANCELLED | LOAD_DELAYED | LOAD_UPDATED
  | VEHICLE_LOCATION_UPDATED | VEHICLE_STATUS_CHANGED | VEHICLE_MAINTENANCE_DUE
  | VEHICLE_BREAKDOWN | VEHICLE_FUEL_LOW | VEHICLE_ASSIGNED | VEHICLE_INSPECTION_DUE
  | DRIVER_STATUS_CHANGED | DRIVER_LOCATION_UPDATED | DRIVER_HOS_VIOLATION
  | DRIVER_ASSIGNED | DRIVER_BREAK_STARTED | DRIVER_BREAK_ENDED
  | DRIVER_LOGIN | DRIVER_LOGOUT
  | ROUTE_OPTIMIZED | ROUTE_DEVIATION | ROUTE_COMPLETED | ROUTE_UPDATED
  | TRAFFIC_ALERT | ROUTE_ETA_UPDATED
  | SYSTEM_ALERT | AI_PREDICTION | INTEGRATION_ERROR | DATA_QUALITY_ISSUE
  | PERFORMANCE_DEGRADATION
  deriving DecidableEq, BEq

/-- The event envelope as seen by GraphSyncService: the routed event type,
the envelope timestamp (as its ISO string) and the payload dictionary.
These are the attributes BaseEvent defines; in particular no event class
in models/events.py defines a top-level location attribute (the Location
mentions in VehicleLocationEvent and the status events sit inside nested
LocationData/StatusData class declarations that are not fields of the
event), so an event carries no readable location. -/
structure Event where
  event_type : EventType
  timestamp : String
  data : Props
  deriving DecidableEq

/-- Handler for LOAD_CREATED (graph_sync_service.py, lines 59-84). -/
def handle_load_created (now : String) (e : Event) (g : Graph) : Graph :=
  let vid := dget e.data "id"
  let load_id := if vid.truthy then vid else dget e.data "load_id"
  if !load_id.truthy then g
  else
    let g1 := create_load_node now load_id.asId (dget e.data "customer_id")
      (dget e.data "pickup_location") (dget e.data "delivery_location")
      (dget e.data "weight") (dgetD e.data "status" (.str "PENDING"))
      (some e.timestamp) g
    if (dget e.data "customer_id").truthy then
      create_customer_load_relationship (dget e.data "customer_id").asId
        load_id.asId g1
    else g1

/-- Handler for LOAD_ASSIGNED (lines 86-113). -/
def handle_load_assigned (now : String) (e : Event) (g : Graph) : Graph :=
  let load_id := dget e.data "load_id"
  let driver_id := dget e.data "driver_id"
  let vehicle_id := dget e.data "vehicle_id"
  if !load_id.truthy then g
  else
    let g1 :=
      if driver_id.truthy then
        create_driver_load_assignment now driver_id.asId load_id.asId
          (some e.timestamp)
          (create_driver_node_if_not_exists now driver_id.asId g)
      else g
    if vehicle_id.truthy then
      create_vehicle_load_assignment now vehicle_id.asId load_id.asId
        (some e.timestamp)
        (create_vehicle_node_if_not_exists now vehicle_id.asId g1)
    else g1

/-- Handler for LOAD_DELIVERED (lines 115-125). -/
def handle_load_delivered (now : String) (e : Event) (g : Graph) : Graph :=
  let load_id := dget e.data "load_id"
  if load_id.truthy then
    update_load_status now load_id.asId "DELIVERED" (some e.timestamp) none g
  else g

/-- Handler for LOAD_CANCELLED (lines 127-139). -/
def handle_load_cancelled (now : String) (e : Event) (g : Graph) : Graph :=
  let load_id := dget e.data "load_id"
  if load_id.truthy then
    remove_load_assignments load_id.asId
      (update_load_status now load_id.asId "CANCELLED" none (some e.timestamp) g)
  else g

/-- Handler for VEHICLE_LOCATION_UPDATED (lines 141-153). After the
effect-free reads data = event.data and vehicle_id = data.get, the
statement location = event.location executes; neither BaseEvent nor
VehicleLocationEvent defines a top-level location attribute, so the
access raises AttributeError before any repository call. The raised
exception is the whole outcome of the handler body. -/
def handle_vehicle_location_updated (_e : Event) (_g : Graph) :
    Except String Graph :=
  .error "AttributeError: location"

/-- Handler for VEHICLE_ASSIGNED (lines 155-177). -/
def handle_vehicle_assigned (now : String) (e : Event) (g : Graph) : Graph :=
  let vehicle_id := dget e.data "vehicle_id"
  let carrier_id := dget e.data "carrier_id"
  let driver_id := dget e.data "driver_id"
  if !vehicle_id.truthy then g
  else
    let g1 := create_vehicle_node_if_not_exists now vehicle_id.asId g
    let g2 :=
      if carrier_id.truthy then
        create_vehicle_carrier_relationship vehicle_id.asId carrier_id.asId g1
      else g1
    if driver_id.truthy then
      create_driver_vehicle_relationship now driver_id.asId vehicle_id.asId
        (some e.timestamp)
        (create_driver_node_if_not_exists now driver_id.asId g2)
    else g2

/-- Handler for VEHICLE_STATUS_CHANGED (lines 179-190). -/
def handle_vehicle_status_changed (now : String) (e : Event) (g : Graph) : Graph :=
  let vehicle_id := dget e.data "vehicle_id"
  let status := dget e.data "status"
  if vehicle_id.truthy && status.truthy then
    update_vehicle_status now vehicle_id.asId status (some e.timestamp) g
  else g

/-- Handler for DRIVER_STATUS_CHANGED (lines 192-204). -/
def handle_driver_status_changed (now : String) (e : Event) (g : Graph) : Graph :=
  let driver_id := dget e.data "driver_id"
  let status := dget e.data "status"
  if driver_id.truthy && status.truthy then
    update_driver_status now driver_id.asId status (some e.timestamp)
      (create_driver_node_if_not_exists now driver_id.asId g)
  else g

/-- Handler for DRIVER_ASSIGNED (lines 206-228). -/
def handle_driver_assigned (now : String) (e : Event) (g : Graph) : Graph :=
  let driver_id := dget e.data "driver_id"
  let load_id := dget e.data "load_id"
  let vehicle_id := dget e.data "vehicle_id"
  if !driver_id.truthy then g
  else
    let g1 := create_driver_node_if_not_exists now driver_id.asId g
    let g2 :=
      if load_id.truthy then
        create_driver_load_assignment now driver_id.asId load_id.asId
          (some e.timestamp) g1
      else g1
    if vehicle_id.truthy then
      create_driver_vehicle_relationship now driver_id.asId vehicle_id.asId
        (some e.timestamp) g2
    else g2

/-- Handler for DRIVER_LOCATION_UPDATED (lines 230-243). Like the vehicle
twin, the statement location = event.location raises AttributeError: no
event class defines that attribute, and DRIVER_LOCATION_UPDATED is not
even in EVENT_TYPE_MAPPING, so its envelopes parse as plain BaseEvent.
The raise happens before create_driver_node_if_not_exists or
update_driver_location can run. -/
def handle_driver_location_updated (_e : Event) (_g : Graph) :
    Except String Graph :=
  .error "AttributeError: location"

/-- Handler for ROUTE_OPTIMIZED (lines 245-279). -/
def handle_route_optimized (now : String) (e : Event) (g : Graph) : Graph :=
  let route_id := dget e.data "route_id"
  let load_id := dget e.data "load_id"
  let driver_id := dget e.data "driver_id"
  let vehicle_id := dget e.data "vehicle_id"
  if !route_id.truthy then g
  else
    let g1 := create_route_node now route_id.asId
      (if load_id.truthy then .str load_id.asId else .null)
      (dget e.data "distance") (dget e.data "duration") (some e.timestamp) g
    let g2 :=
      if load_id.truthy then
        create_route_load_relationship route_id.asId load_id.asId g1
      else g1
    let g3 :=
      if driver_id.truthy then
        create_route_driver_relationship route_id.asId driver_id.asId g2
      else g2
    if vehicle_id.truthy then
      create_route_vehicle_relationship route_id.asId vehicle_id.asId g3
    else g3

/-- Handler for ROUTE_COMPLETED (lines 281-291). -/
def handle_route_completed (now : String) (e : Event) (g : Graph) : Graph :=
  let route_id := dget e.data "route_id"
  if route_id.truthy then
    update_route_status now route_id.asId "COMPLETED" (some e.timestamp) g
  else g

/-- The try/except of GraphSyncService.handle_event (lines 26-57) wraps
the entire dispatch: an exception raised by the selected handler is
caught and logged, leaving the graph as it was when the exception was
raised. -/
def catchToGraph (g : Graph) (r : Except String Graph) : Graph :=
  match r with
  | .ok g2 => g2
  | .error _ => g

/-- GraphSyncService.handle_event: route by event type to the matching
mutation handler inside a catch-all try/except; event types without a
handler are logged at debug level and are no-ops. The two location
handlers raise AttributeError, which the except block swallows. -/
def handle_event (now : String) (e : Event) (g : Graph) : Graph :=
  match e.event_type with
  | .LOAD_CREATED => handle_load_created now e g
  | .LOAD_ASSIGNED => handle_load_assigned now e g
  | .LOAD_DELIVERED => handle_load_delivered now e g
  | .LOAD_CANCELLED => handle_load_cancelled now e g
  | .VEHICLE_LOCATION_UPDATED =>
      catchToGraph g (handle_vehicle_location_updated e g)
  | .VEHICLE_ASSIGNED => handle_vehicle_assigned now e g
  | .VEHICLE_STATUS_CHANGED => handle_vehicle_status_changed now e g
  | .DRIVER_STATUS_CHANGED => handle_driver_status_changed now e g
  | .DRIVER_ASSIGNED => handle_driver_assigned now e g
  | .DRIVER_LOCATION_UPDATED =>
      catchToGraph g (handle_driver_location_updated e g)
  | .ROUTE_OPTIMIZED => handle_route_optimized now e g
  | .ROUTE_COMPLETED => handle_route_completed now e g
  | _ => g

/-- Replay a list of events through the synchronizer, oldest first. -/
def applyEvents (now : String) (evs : List Event) (g : Graph) : Graph :=
  evs.foldl (fun acc e => handle_event now e acc) g

/-- Every node matching the label and id already carries each of the listed
property values; on such graphs the corresponding MATCH-SET is a no-op. -/
def NodeHasVals (g : Graph) (l i : String) (kvs : Props) : Prop :=
  ∀ n ∈ g.nodes, nodeMatches n l i = true →
    ∀ kv ∈ kvs, getVal n.props kv.1 = some kv.2

/-- Every node matching the label and id has some value under the key. -/
def NodeHasKey (g : Graph) (l i k : String) : Prop :=
  ∀ n ∈ g.nodes, nodeMatches n l i = true → ∃ w, getVal n.props k = some w

/-- Every edge matching the pattern already carries each of the listed
property values. -/
def EdgeHasVals (g : Graph) (t fl fi tl ti : String) (kvs : Props) : Prop :=
  ∀ e ∈ g.edges, edgeMatches e t fl fi tl ti = true →
    ∀ kv ∈ kvs, getVal e.props kv.1 = some kv.2

theorem edges_mergeNode (l i : String) (pr : Props) (g : Graph) :
    (mergeNode l i pr g).edges = g.edges := by
  unfold mergeNode
  split <;> rfl

theorem edges_matchSetNode (l i : String) (kvs : Props) (g : Graph) :
    (matchSetNode l i kvs g).edges = g.edges := rfl

theorem nodes_mergeEdgeSet (t fl fi tl ti : String) (kvs : Props) (g : Graph) :
    (mergeEdgeSet t fl fi tl ti kvs g).nodes = g.nodes := by
  unfold mergeEdgeSet
  split
  · split <;> rfl
  · rfl

theorem nodes_remove_load_assignments (lid : String) (g : Graph) :
    (remove_load_assignments lid g).nodes = g.nodes := rfl

theorem nodeMatches_self (l i : String) (pr : Props) :
    nodeMatches ⟨l, i, pr⟩ l i = true := by
  simp [nodeMatches]

theorem nodeExists_of_nodes_eq {g g' : Graph} (h : g'.nodes = g.nodes)
    (l i : String) : nodeExists g' l i = nodeExists g l i := by
  unfold nodeExists
  rw [h]

theorem nodeExists_mergeNode_self (l i : String) (pr : Props) (g : Graph) :
    nodeExists (mergeNode l i pr g) l i = true := by
  unfold mergeNode
  split
  · assumption
  · simp [nodeExists, List.any_append, nodeMatches_self]

theorem nodeExists_mergeNode_mono (l i l' i' : String) (pr : Props) (g : Graph)
    (h : nodeExists g l i = true) :
    nodeExists (mergeNode l' i' pr g) l i = true := by
  unfold mergeNode
  split
  · exact h
  · unfold nodeExists at h ⊢
    rw [List.any_append, h]
    rfl

theorem nodeExists_matchSetNode (l i l' i' : String) (kvs : Props) (g : Graph) :
    nodeExists (matchSetNode l' i' kvs g) l i = nodeExists g l i := by
  unfold nodeExists matchSetNode
  simp only [List.any_map]
  congr 1
  funext n
  show nodeMatches (if nodeMatches n l' i' then
      { n with props := setVals n.props kvs } else n) l i = nodeMatches n l i
  split <;> rfl

theorem nodeExists_mergeNode_ne (l i l' i' : String) (pr : Props) (g : Graph)
    (h : ¬(l' = l ∧ i' = i)) :
    nodeExists (mergeNode l' i' pr g) l i = nodeExists g l i := by
  unfold mergeNode
  split
  · rfl
  · simp only [nodeExists, List.any_append, List.any_cons, List.any_nil,
      Bool.or_false]
    have : nodeMatches ⟨l', i', pr⟩ l i = false := by
      simp only [nodeMatches, Bool.and_eq_false_iff, beq_eq_false_iff_ne, ne_eq]
      by_cases hl : l' = l
      · right; intro hi; exact h ⟨hl, hi⟩
      · left; exact hl
    rw [this]
    simp

theorem mergeNode_eq_of_exists (l i : String) (pr : Props) (g : Graph)
    (h : nodeExists g l i = true) : mergeNode l i pr g = g := by
  unfold mergeNode
  simp [h]

theorem matchSetNode_eq_of_hasVals (l i : String) (kvs : Props) (g : Graph)
    (h : NodeHasVals g l i kvs) : matchSetNode l i kvs g = g := by
  unfold matchSetNode
  have hmap : g.nodes.map (fun n =>
      if nodeMatches n l i then { n with props := setVals n.props kvs } else n) =
      g.nodes := by
    have h2 : ∀ n ∈ g.nodes, (if nodeMatches n l i then
        { n with props := setVals n.props kvs } else n) = id n := by
      intro n hn
      by_cases hm : nodeMatches n l i
      · rw [if_pos hm, setVals_id_of_getVal kvs n.props (h n hn hm)]
        rfl
      · rw [if_neg hm]
        rfl
    rw [List.map_congr_left h2, List.map_id]
  rw [hmap]

theorem hasVals_of_nodes_eq {g g' : Graph} (h : g'.nodes = g.nodes)
    (l i : String) (kvs : Props) (hv : NodeHasVals g l i kvs) :
    NodeHasVals g' l i kvs := by
  intro n hn
  rw [h] at hn
  exact hv n hn

theorem hasVals_matchSetNode_self (l i : String) (kvs : Props) (g : Graph)
    (hnd : (kvs.map Prod.fst).Nodup) :
    NodeHasVals (matchSetNode l i kvs g) l i kvs := by
  intro n hn hm kv hkv
  simp only [matchSetNode, List.mem_map] at hn
  obtain ⟨m, hmem, hfm⟩ := hn
  by_cases hmm : nodeMatches m l i
  · rw [if_pos hmm] at hfm
    subst hfm
    exact getVal_setVals_mem kvs m.props kv.1 kv.2 hnd hkv
  · rw [if_neg hmm] at hfm
    subst hfm
    exact absurd hm hmm

theorem hasVals_mergeNode_ne (l i l' i' : String) (pr : Props) (g : Graph)
    (h : ¬(l' = l ∧ i' = i)) (kvs : Props) (hv : NodeHasVals g l i kvs) :
    NodeHasVals (mergeNode l' i' pr g) l i kvs := by
  unfold mergeNode
  split
  · exact hv
  · intro n hn hm
    simp only [List.mem_append, List.mem_cons, List.mem_singleton,
      List.not_mem_nil, or_false] at hn
    rcases hn with hn | hn
    · exact hv n hn hm
    · subst hn
      exfalso
      simp only [nodeMatches, Bool.and_eq_true, beq_iff_eq] at hm
      exact h hm

theorem hasVals_matchSetNode_ne (l i l' i' : String) (kvs' : Props) (g : Graph)
    (h : ¬(l' = l ∧ i' = i)) (kvs : Props) (hv : NodeHasVals g l i kvs) :
    NodeHasVals (matchSetNode l' i' kvs' g) l i kvs := by
  intro n hn hm kv hkv
  simp only [matchSetNode, List.mem_map] at hn
  obtain ⟨m, hmem, hfm⟩ := hn
  by_cases hmm : nodeMatches m l' i'
  · rw [if_pos hmm] at hfm
    subst hfm
    simp only [nodeMatches, Bool.and_eq_true, beq_iff_eq] at hm hmm
    exact absurd ⟨hmm.1.symm.trans hm.1, hmm.2.symm.trans hm.2⟩ h
  · rw [if_neg hmm] at hfm
    subst hfm
    exact hv m hmem hm kv hkv

theorem hasVals_matchSetNode_disjoint (l i : String) (kvs' kvs : Props)
    (g : Graph)
    (h : ∀ k ∈ kvs.map Prod.fst, k ∉ kvs'.map Prod.fst)
    (hv : NodeHasVals g l i kvs) :
    NodeHasVals (matchSetNode l i kvs' g) l i kvs := by
  intro n hn hm kv hkv
  simp only [matchSetNode, List.mem_map] at hn
  obtain ⟨m, hmem, hfm⟩ := hn
  by_cases hmm : nodeMatches m l i
  · rw [if_pos hmm] at hfm
    subst hfm
    have hk : kv.1 ∉ kvs'.map Prod.fst :=
      h kv.1 (List.mem_map.mpr ⟨kv, hkv, rfl⟩)
    rw [getVal_setVals_not_mem kvs' m.props kv.1 hk]
    exact hv m hmem hmm kv hkv
  · rw [if_neg hmm] at hfm
    subst hfm
    exact hv m hmem hm kv hkv

theorem getVal_setVals_isSome (kvs ps : Props) (k : String)
    (h : k ∈ kvs.map Prod.fst) : ∃ w, getVal (setVals ps kvs) k = some w := by
  induction kvs generalizing ps with
  | nil => simp at h
  | cons kv rest ih =>
      by_cases hr : k ∈ rest.map Prod.fst
      · rw [setVals_cons]
        exact ih (setVal ps kv.1 kv.2) hr
      · simp only [List.map_cons, List.mem_cons] at h
        rcases h with h | h
        · rw [setVals_cons, getVal_setVals_not_mem rest _ k hr, h,
            getVal_setVal_self]
          exact ⟨kv.2, rfl⟩
        · exact absurd h hr

theorem hasKey_matchSetNode (l i : String) (kvs : Props) (g : Graph)
    (k : String) (h : k ∈ kvs.map Prod.fst) :
    NodeHasKey (matchSetNode l i kvs g) l i k := by
  intro n hn hm
  simp only [matchSetNode, List.mem_map] at hn
  obtain ⟨m, hmem, hfm⟩ := hn
  by_cases hmm : nodeMatches m l i
  · rw [if_pos hmm] at hfm
    subst hfm
    exact getVal_setVals_isSome kvs m.props k h
  · rw [if_neg hmm] at hfm
    subst hfm
    exact absurd hm hmm

theorem setVals_pair_absorb (p : Props) (u s : String) (a sv ts : Val)
    (hus : s ≠ u) (hp : ∃ w, getVal p s = some w) :
    setVals (setVal p u a) [(s, sv), (u, ts)] = setVals p [(s, sv), (u, ts)] := by
  obtain ⟨w, hw⟩ := hp
  simp only [setVals_cons, setVals_nil]
  rw [setVal_comm_of_getVal p u s a sv w (Ne.symm hus) hw, setVal_setVal]

theorem matchSetNode_pair_absorb (l i u s : String) (a sv ts : Val) (g : Graph)
    (hus : s ≠ u) (hk : NodeHasKey g l i s) :
    matchSetNode l i [(s, sv), (u, ts)] (matchSetNode l i [(u, a)] g) =
      matchSetNode l i [(s, sv), (u, ts)] g := by
  unfold matchSetNode
  simp only [Graph.mk.injEq, and_true, List.map_map]
  apply List.map_congr_left
  intro n hn
  by_cases hm : nodeMatches n l i
  · simp only [Function.comp_apply, if_pos hm]
    have h1 : setVals n.props [(u, a)] = setVal n.props u a := rfl
    rw [h1, setVals_pair_absorb n.props u s a sv ts hus (hk n hn hm)]
    have hm2 : nodeMatches { n with props := setVal n.props u a } l i = true := by
      simpa [nodeMatches] using hm
    rw [if_pos hm2]
  · simp only [Function.comp_apply, if_neg hm]

theorem edgeMatches_self (t fl fi tl ti : String) (pr : Props) :
    edgeMatches ⟨t, fl, fi, tl, ti, pr⟩ t fl fi tl ti = true := by
  simp [edgeMatches]

theorem edgeExists_of_edges_eq {g g' : Graph} (h : g'.edges = g.edges)
    (t fl fi tl ti : String) :
    edgeExists g' t fl fi tl ti = edgeExists g t fl fi tl ti := by
  unfold edgeExists
  rw [h]

theorem edgeHasVals_of_edges_eq {g g' : Graph} (h : g'.edges = g.edges)
    (t fl fi tl ti : String) (kvs : Props)
    (hv : EdgeHasVals g t fl fi tl ti kvs) : EdgeHasVals g' t fl fi tl ti kvs := by
  intro e he
  rw [h] at he
  exact hv e he

theorem mergeEdgeSet_eq_of_not_endpoints (t fl fi tl ti : String) (kvs : Props)
    (g : Graph) (h : ¬(nodeExists g fl fi && nodeExists g tl ti)) :
    mergeEdgeSet t fl fi tl ti kvs g = g := by
  unfold mergeEdgeSet
  rw [if_neg h]

theorem mergeEdgeSet_eq_of_fix (t fl fi tl ti : String) (kvs : Props)
    (g : Graph) (hex : edgeExists g t fl fi tl ti = true)
    (hv : EdgeHasVals g t fl fi tl ti kvs) :
    mergeEdgeSet t fl fi tl ti kvs g = g := by
  unfold mergeEdgeSet
  split
  · simp only [hex, if_true]
    have hmap : g.edges.map (fun e =>
        if edgeMatches e t fl fi tl ti then { e with props := setVals e.props kvs }
        else e) = g.edges := by
      have h2 : ∀ e ∈ g.edges, (if edgeMatches e t fl fi tl ti then
          { e with props := setVals e.props kvs } else e) = id e := by
        intro e he
        by_cases hm : edgeMatches e t fl fi tl ti
        · rw [if_pos hm, setVals_id_of_getVal kvs e.props (hv e he hm)]
          rfl
        · rw [if_neg hm]
          rfl
      rw [List.map_congr_left h2, List.map_id]
    rw [hmap]
  · rfl

theorem edgeExists_mergeEdgeSet_self (t fl fi tl ti : String) (kvs : Props)
    (g : Graph) (hf : nodeExists g fl fi = true) (ht : nodeExists g tl ti = true) :
    edgeExists (mergeEdgeSet t fl fi tl ti kvs g) t fl fi tl ti = true := by
  unfold mergeEdgeSet
  rw [if_pos (by rw [hf, ht]; rfl)]
  by_cases hex : edgeExists g t fl fi tl ti
  · simp only [hex, if_true]
    unfold edgeExists at hex ⊢
    simp only [List.any_map, List.any_eq_true] at hex ⊢
    obtain ⟨e, he, hm⟩ := hex
    refine ⟨e, he, ?_⟩
    simp only [Function.comp_apply, if_pos hm]
    simpa [edgeMatches] using hm
  · simp only [hex, if_false]
    unfold edgeExists
    simp only [List.any_map, List.any_eq_true]
    refine ⟨⟨t, fl, fi, tl, ti, []⟩, List.mem_append_right _ (List.mem_singleton.mpr rfl), ?_⟩
    simp [edgeMatches_self]

theorem edgeHasVals_mergeEdgeSet_self (t fl fi tl ti : String) (kvs : Props)
    (g : Graph) (hnd : (kvs.map Prod.fst).Nodup)
    (hf : nodeExists g fl fi = true) (ht : nodeExists g tl ti = true) :
    EdgeHasVals (mergeEdgeSet t fl fi tl ti kvs g) t fl fi tl ti kvs := by
  unfold mergeEdgeSet
  rw [if_pos (by rw [hf, ht]; rfl)]
  intro e he hm kv hkv
  simp only [List.mem_map] at he
  obtain ⟨e0, he0, hfe⟩ := he
  by_cases hmm : edgeMatches e0 t fl fi tl ti
  · rw [if_pos hmm] at hfe
    subst hfe
    exact getVal_setVals_mem kvs e0.props kv.1 kv.2 hnd hkv
  · rw [if_neg hmm] at hfe
    subst hfe
    exact absurd hm hmm

theorem edgeMatches_ne_relType {e : Edge} {t t' fl fi tl ti : String}
    (hne : t' ≠ t) (h : e.relType = t') :
    edgeMatches e t fl fi tl ti = false := by
  simp only [edgeMatches, h, Bool.and_eq_false_iff, beq_eq_false_iff_ne, ne_eq]
  left
  left
  left
  left
  exact hne

theorem any_edgeMatches_map (t fl fi tl ti t' fl' fi' tl' ti' : String)
    (kvs : Props) (es : List Edge) :
    (es.map fun e => if edgeMatches e t' fl' fi' tl' ti' then
        { e with props := setVals e.props kvs } else e).any
      (fun e => edgeMatches e t fl fi tl ti) =
      es.any (fun e => edgeMatches e t fl fi tl ti) := by
  rw [List.any_map]
  congr 1
  funext e
  show edgeMatches (if edgeMatches e t' fl' fi' tl' ti' then
      { e with props := setVals e.props kvs } else e) t fl fi tl ti =
    edgeMatches e t fl fi tl ti
  split <;> rfl

theorem edgeExists_mergeEdgeSet_ne (t t' fl fi tl ti fl' fi' tl' ti' : String)
    (kvs : Props) (g : Graph) (hne : t' ≠ t) :
    edgeExists (mergeEdgeSet t' fl' fi' tl' ti' kvs g) t fl fi tl ti =
      edgeExists g t fl fi tl ti := by
  unfold mergeEdgeSet
  by_cases hend : (nodeExists g fl' fi' && nodeExists g tl' ti') = true
  · rw [if_pos hend]
    by_cases hex : edgeExists g t' fl' fi' tl' ti' = true
    · rw [if_pos hex]
      exact any_edgeMatches_map t fl fi tl ti t' fl' fi' tl' ti' kvs g.edges
    · rw [if_neg hex]
      show ((g.edges ++ [(⟨t', fl', fi', tl', ti', []⟩ : Edge)]).map fun e =>
          if edgeMatches e t' fl' fi' tl' ti' then
            { e with props := setVals e.props kvs } else e).any
          (fun e => edgeMatches e t fl fi tl ti) = _
      rw [List.map_append,
        List.any_append,
        any_edgeMatches_map t fl fi tl ti t' fl' fi' tl' ti' kvs g.edges]
      have hnew : (([(⟨t', fl', fi', tl', ti', []⟩ : Edge)].map fun e =>
          if edgeMatches e t' fl' fi' tl' ti' then
            { e with props := setVals e.props kvs } else e).any
          (fun e => edgeMatches e t fl fi tl ti)) = false := by
        simp only [List.map_cons, List.map_nil, List.any_cons, List.any_nil,
          Bool.or_false, edgeMatches_self, if_true]
        exact edgeMatches_ne_relType hne rfl
      rw [hnew]
      simp only [Bool.or_false]
      rfl
  · rw [if_neg hend]

theorem edgeHasVals_mergeEdgeSet_ne (t t' fl fi tl ti fl' fi' tl' ti' : String)
    (kvs' kvs : Props) (g : Graph) (hne : t' ≠ t)
    (hv : EdgeHasVals g t fl fi tl ti kvs) :
    EdgeHasVals (mergeEdgeSet t' fl' fi' tl' ti' kvs' g) t fl fi tl ti kvs := by
  have hstep : ∀ (es : List Edge),
      (∀ e ∈ es, edgeMatches e t fl fi tl ti = true →
        ∀ kv ∈ kvs, getVal e.props kv.1 = some kv.2) →
      ∀ e ∈ es.map (fun e => if edgeMatches e t' fl' fi' tl' ti' then
          { e with props := setVals e.props kvs' } else e),
        edgeMatches e t fl fi tl ti = true →
        ∀ kv ∈ kvs, getVal e.props kv.1 = some kv.2 := by
    intro es hes e he hm kv hkv
    simp only [List.mem_map] at he
    obtain ⟨e0, he0, hfe⟩ := he
    by_cases hmm : edgeMatches e0 t' fl' fi' tl' ti'
    · rw [if_pos hmm] at hfe
      have he0t : e0.relType = t' := by
        simp only [edgeMatches, Bool.and_eq_true, beq_iff_eq] at hmm
        exact hmm.1.1.1.1
      subst hfe
      have hfalse : edgeMatches { e0 with props := setVals e0.props kvs' }
          t fl fi tl ti = false := edgeMatches_ne_relType hne he0t
      rw [hfalse] at hm
      exact absurd hm (by simp)
    · rw [if_neg hmm] at hfe
      subst hfe
      exact hes e0 he0 hm kv hkv
  unfold mergeEdgeSet
  by_cases hend : (nodeExists g fl' fi' && nodeExists g tl' ti') = true
  · rw [if_pos hend]
    by_cases hex : edgeExists g t' fl' fi' tl' ti' = true
    · rw [if_pos hex]
      intro e he hm kv hkv
      exact hstep g.edges hv e he hm kv hkv
    · rw [if_neg hex]
      intro e he hm kv hkv
      refine hstep (g.edges ++ [(⟨t', fl', fi', tl', ti', []⟩ : Edge)]) ?_ e he hm kv hkv
      intro e2 he2 hm2 kv2 hkv2
      rcases List.mem_append.mp he2 with he3 | he3
      · exact hv e2 he3 hm2 kv2 hkv2
      · exfalso
        rw [List.mem_singleton.mp he3] at hm2
        rw [edgeMatches_ne_relType hne rfl] at hm2
        exact absurd hm2 (by simp)
  · rw [if_neg hend]
    exact hv

theorem remove_load_assignments_idem (lid : String) (g : Graph) :
    remove_load_assignments lid (remove_load_assignments lid g) =
      remove_load_assignments lid g := by
  unfold remove_load_assignments
  simp only [Graph.mk.injEq, true_and]
  apply List.filter_eq_self.mpr
  intro e he
  exact (List.mem_filter.mp he).2

theorem nodes_upsertNode (l i : String) (oc kvs : Props) (g : Graph) :
    (upsertNode l i oc kvs g).edges = g.edges := by
  unfold upsertNode
  rw [edges_matchSetNode, edges_mergeNode]

theorem nodeExists_upsertNode_self (l i : String) (oc kvs : Props) (g : Graph) :
    nodeExists (upsertNode l i oc kvs g) l i = true := by
  unfold upsertNode
  rw [nodeExists_matchSetNode]
  exact nodeExists_mergeNode_self l i oc g

theorem nodeExists_upsertNode_mono (l i l' i' : String) (oc kvs : Props)
    (g : Graph) (h : nodeExists g l i = true) :
    nodeExists (upsertNode l' i' oc kvs g) l i = true := by
  unfold upsertNode
  rw [nodeExists_matchSetNode]
  exact nodeExists_mergeNode_mono l i l' i' oc g h

theorem nodeExists_upsertNode_ne (l i l' i' : String) (oc kvs : Props)
    (g : Graph) (h : ¬(l' = l ∧ i' = i)) :
    nodeExists (upsertNode l' i' oc kvs g) l i = nodeExists g l i := by
  unfold upsertNode
  rw [nodeExists_matchSetNode]
  exact nodeExists_mergeNode_ne l i l' i' oc g h

theorem hasVals_upsertNode_self (l i : String) (oc kvs : Props) (g : Graph)
    (hnd : (kvs.map Prod.fst).Nodup) :
    NodeHasVals (upsertNode l i oc kvs g) l i kvs :=
  hasVals_matchSetNode_self l i kvs (mergeNode l i oc g) hnd

theorem hasVals_upsertNode_ne (l i l' i' : String) (oc kvs' : Props)
    (g : Graph) (h : ¬(l' = l ∧ i' = i)) (kvs : Props)
    (hv : NodeHasVals g l i kvs) :
    NodeHasVals (upsertNode l' i' oc kvs' g) l i kvs :=
  hasVals_matchSetNode_ne l i l' i' kvs' (mergeNode l' i' oc g) h kvs
    (hasVals_mergeNode_ne l i l' i' oc g h kvs hv)

theorem upsertNode_fix (l i : String) (oc kvs : Props) (g : Graph)
    (hex : nodeExists g l i = true) (hv : NodeHasVals g l i kvs) :
    upsertNode l i oc kvs g = g := by
  unfold upsertNode
  rw [mergeNode_eq_of_exists l i oc g hex, matchSetNode_eq_of_hasVals l i kvs g hv]

theorem nodeExists_mergeEdgeSet (l i t fl fi tl ti : String) (kvs : Props)
    (g : Graph) :
    nodeExists (mergeEdgeSet t fl fi tl ti kvs g) l i = nodeExists g l i :=
  nodeExists_of_nodes_eq (nodes_mergeEdgeSet t fl fi tl ti kvs g) l i

theorem hasVals_mergeEdgeSet (l i t fl fi tl ti : String) (kvs' kvs : Props)
    (g : Graph) (hv : NodeHasVals g l i kvs) :
    NodeHasVals (mergeEdgeSet t fl fi tl ti kvs' g) l i kvs :=
  hasVals_of_nodes_eq (nodes_mergeEdgeSet t fl fi tl ti kvs' g) l i kvs hv

theorem nodeExists_remove_load_assignments (l i lid : String) (g : Graph) :
    nodeExists (remove_load_assignments lid g) l i = nodeExists g l i :=
  nodeExists_of_nodes_eq (nodes_remove_load_assignments lid g) l i

theorem hasVals_remove_load_assignments (l i lid : String) (kvs : Props)
    (g : Graph) (hv : NodeHasVals g l i kvs) :
    NodeHasVals (remove_load_assignments lid g) l i kvs :=
  hasVals_of_nodes_eq (nodes_remove_load_assignments lid g) l i kvs hv

theorem edgeExists_upsertNode (t fl fi tl ti l i : String) (oc kvs : Props)
    (g : Graph) :
    edgeExists (upsertNode l i oc kvs g) t fl fi tl ti =
      edgeExists g t fl fi tl ti :=
  edgeExists_of_edges_eq (nodes_upsertNode l i oc kvs g) t fl fi tl ti

theorem edgeHasVals_upsertNode (t fl fi tl ti l i : String) (oc kvs' kvs : Props)
    (g : Graph) (hv : EdgeHasVals g t fl fi tl ti kvs) :
    EdgeHasVals (upsertNode l i oc kvs' g) t fl fi tl ti kvs :=
  edgeHasVals_of_edges_eq (nodes_upsertNode l i oc kvs' g) t fl fi tl ti kvs hv

theorem edgeExists_matchSetNode (t fl fi tl ti l i : String) (kvs : Props)
    (g : Graph) :
    edgeExists (matchSetNode l i kvs g) t fl fi tl ti =
      edgeExists g t fl fi tl ti :=
  edgeExists_of_edges_eq (edges_matchSetNode l i kvs g) t fl fi tl ti

theorem edgeHasVals_matchSetNode (t fl fi tl ti l i : String) (kvs' kvs : Props)
    (g : Graph) (hv : EdgeHasVals g t fl fi tl ti kvs) :
    EdgeHasVals (matchSetNode l i kvs' g) t fl fi tl ti kvs :=
  edgeHasVals_of_edges_eq (edges_matchSetNode l i kvs' g) t fl fi tl ti kvs hv

theorem label_pair_ne {l' l : String} (h : l' ≠ l) (i' i : String) :
    ¬(l' = l ∧ i' = i) := fun hc => h hc.1

theorem edgeHasVals_nil (g : Graph) (t fl fi tl ti : String) :
    EdgeHasVals g t fl fi tl ti [] := by
  intro e he hm kv hkv
  exact absurd hkv (List.not_mem_nil kv)

theorem handle_load_created_idem (now : String) (e : Event) (g : Graph) :
    handle_load_created now e (handle_load_created now e g) =
      handle_load_created now e g := by
  by_cases hL : (if (dget e.data "id").truthy then dget e.data "id"
      else dget e.data "load_id").truthy
  case neg =>
    simp only [handle_load_created, Bool.not_eq_true] at hL ⊢
    rw [hL]
    simp
  case pos =>
    by_cases hC : (dget e.data "customer_id").truthy
    · simp only [handle_load_created, hL, hC, Bool.not_true, if_true,
        Bool.false_eq_true, if_false]
      unfold create_customer_load_relationship create_load_node
      set lS := (if (dget e.data "id").truthy then dget e.data "id"
        else dget e.data "load_id").asId with hlS
      set cS := (dget e.data "customer_id").asId with hcS
      set K : Props := [("customer_id", dget e.data "customer_id"),
        ("pickup_location", dget e.data "pickup_location"),
        ("delivery_location", dget e.data "delivery_location"),
        ("weight", dget e.data "weight"),
        ("status", dgetD e.data "status" (.str "PENDING")),
        ("created_at", Val.str e.timestamp),
        ("updated_at", Val.str now)] with hK
      set G1 := upsertNode "Load" lS [] K g with hG1
      set Hg := mergeEdgeSet "ORDERS" "Customer" cS "Load" lS [] G1 with hHg
      have hndK : (K.map Prod.fst).Nodup := by
        rw [hK]
        show (["customer_id", "pickup_location", "delivery_location", "weight",
          "status", "created_at", "updated_at"] : List String).Nodup
        decide
      have hexL : nodeExists Hg "Load" lS = true := by
        rw [hHg, nodeExists_mergeEdgeSet, hG1]
        exact nodeExists_upsertNode_self "Load" lS [] K g
      have hvL : NodeHasVals Hg "Load" lS K := by
        rw [hHg]
        exact hasVals_mergeEdgeSet "Load" lS "ORDERS" "Customer" cS "Load" lS [] K G1
          (hG1 ▸ hasVals_upsertNode_self "Load" lS [] K g hndK)
      have hA : upsertNode "Load" lS [] K Hg = Hg :=
        upsertNode_fix "Load" lS [] K Hg hexL hvL
      have hB : mergeEdgeSet "ORDERS" "Customer" cS "Load" lS [] Hg = Hg := by
        by_cases hCust : nodeExists g "Customer" cS = true
        · have hC1 : nodeExists G1 "Customer" cS = true := by
            rw [hG1, nodeExists_upsertNode_ne "Customer" cS "Load" lS [] K g
              (label_pair_ne (by decide) lS cS)]
            exact hCust
          have hL1 : nodeExists G1 "Load" lS = true := by
            rw [hG1]
            exact nodeExists_upsertNode_self "Load" lS [] K g
          apply mergeEdgeSet_eq_of_fix
          · rw [hHg]
            exact edgeExists_mergeEdgeSet_self "ORDERS" "Customer" cS "Load" lS [] G1 hC1 hL1
          · exact edgeHasVals_nil Hg "ORDERS" "Customer" cS "Load" lS
        · apply mergeEdgeSet_eq_of_not_endpoints
          have : nodeExists Hg "Customer" cS = false := by
            rw [hHg, nodeExists_mergeEdgeSet, hG1,
              nodeExists_upsertNode_ne "Customer" cS "Load" lS [] K g
                (label_pair_ne (by decide) lS cS)]
            exact Bool.not_eq_true _ ▸ hCust
          rw [this]
          simp
      rw [hA, hB]
    · simp only [handle_load_created, hL, hC, Bool.not_true, if_true,
        Bool.false_eq_true, if_false]
      unfold create_load_node
      set lS := (if (dget e.data "id").truthy then dget e.data "id"
        else dget e.data "load_id").asId with hlS
      set K : Props := [("customer_id", dget e.data "customer_id"),
        ("pickup_location", dget e.data "pickup_location"),
        ("delivery_location", dget e.data "delivery_location"),
        ("weight", dget e.data "weight"),
        ("status", dgetD e.data "status" (.str "PENDING")),
        ("created_at", Val.str e.timestamp),
        ("updated_at", Val.str now)] with hK
      have hndK : (K.map Prod.fst).Nodup := by
        rw [hK]
        show (["customer_id", "pickup_location", "delivery_location", "weight",
          "status", "created_at", "updated_at"] : List String).Nodup
        decide
      exact upsertNode_fix "Load" lS [] K (upsertNode "Load" lS [] K g)
        (nodeExists_upsertNode_self "Load" lS [] K g)
        (hasVals_upsertNode_self "Load" lS [] K g hndK)

theorem matchSetNode_idem (l i : String) (kvs : Props) (g : Graph)
    (hnd : (kvs.map Prod.fst).Nodup) :
    matchSetNode l i kvs (matchSetNode l i kvs g) = matchSetNode l i kvs g :=
  matchSetNode_eq_of_hasVals l i kvs (matchSetNode l i kvs g)
    (hasVals_matchSetNode_self l i kvs g hnd)

theorem keys_disjoint_of (ks ks' : List String) (kvs kvs' : Props)
    (h1 : kvs.map Prod.fst = ks) (h2 : kvs'.map Prod.fst = ks')
    (h : ∀ k ∈ ks, k ∉ ks') :
    ∀ k ∈ kvs.map Prod.fst, k ∉ kvs'.map Prod.fst := by
  rw [h1, h2]
  exact h

theorem handle_load_delivered_idem (now : String) (e : Event) (g : Graph) :
    handle_load_delivered now e (handle_load_delivered now e g) =
      handle_load_delivered now e g := by
  by_cases hL : (dget e.data "load_id").truthy
  · simp only [handle_load_delivered, hL, if_true]
    unfold update_load_status
    apply matchSetNode_idem
    show (["status", "updated_at", "delivered_at"] : List String).Nodup
    decide
  · simp only [handle_load_delivered, hL, Bool.false_eq_true, if_false]

theorem handle_load_cancelled_idem (now : String) (e : Event) (g : Graph) :
    handle_load_cancelled now e (handle_load_cancelled now e g) =
      handle_load_cancelled now e g := by
  by_cases hL : (dget e.data "load_id").truthy
  · simp only [handle_load_cancelled, hL, if_true]
    unfold update_load_status
    set lS := (dget e.data "load_id").asId with hlS
    set K : Props := [("status", Val.str "CANCELLED"), ("updated_at", Val.str now),
      ("cancelled_at", Val.str e.timestamp)] with hK
    have hndK : (K.map Prod.fst).Nodup := by
      rw [hK]
      show (["status", "updated_at", "cancelled_at"] : List String).Nodup
      decide
    show remove_load_assignments lS (matchSetNode "Load" lS K
        (remove_load_assignments lS (matchSetNode "Load" lS K g))) =
      remove_load_assignments lS (matchSetNode "Load" lS K g)
    have h1 : matchSetNode "Load" lS K
        (remove_load_assignments lS (matchSetNode "Load" lS K g)) =
        remove_load_assignments lS (matchSetNode "Load" lS K g) := by
      apply matchSetNode_eq_of_hasVals
      exact hasVals_remove_load_assignments "Load" lS lS K _
        (hasVals_matchSetNode_self "Load" lS K g hndK)
    rw [h1]
    exact remove_load_assignments_idem lS (matchSetNode "Load" lS K g)
  · simp only [handle_load_cancelled, hL, Bool.false_eq_true, if_false]

theorem handle_vehicle_location_updated_idem (e : Event) (g : Graph) :
    catchToGraph (catchToGraph g (handle_vehicle_location_updated e g))
      (handle_vehicle_location_updated e
        (catchToGraph g (handle_vehicle_location_updated e g))) =
      catchToGraph g (handle_vehicle_location_updated e g) := rfl

theorem handle_vehicle_status_changed_idem (now : String) (e : Event) (g : Graph) :
    handle_vehicle_status_changed now e (handle_vehicle_status_changed now e g) =
      handle_vehicle_status_changed now e g := by
  by_cases hC : ((dget e.data "vehicle_id").truthy && (dget e.data "status").truthy) = true
  · simp only [handle_vehicle_status_changed, hC, if_true]
    unfold update_vehicle_status
    apply matchSetNode_idem
    show (["status", "updated_at"] : List String).Nodup
    decide
  · simp only [handle_vehicle_status_changed, hC, Bool.false_eq_true, if_false]

theorem handle_route_completed_idem (now : String) (e : Event) (g : Graph) :
    handle_route_completed now e (handle_route_completed now e g) =
      handle_route_completed now e g := by
  by_cases hR : (dget e.data "route_id").truthy
  · simp only [handle_route_completed, hR, if_true]
    unfold update_route_status
    apply matchSetNode_idem
    show (["status", "updated_at", "completed_at"] : List String).Nodup
    decide
  · simp only [handle_route_completed, hR, Bool.false_eq_true, if_false]

theorem handle_driver_status_changed_idem (now : String) (e : Event) (g : Graph) :
    handle_driver_status_changed now e (handle_driver_status_changed now e g) =
      handle_driver_status_changed now e g := by
  by_cases hC : ((dget e.data "driver_id").truthy && (dget e.data "status").truthy) = true
  · simp only [handle_driver_status_changed, hC, if_true]
    unfold update_driver_status create_driver_node_if_not_exists upsertNode
    set dS := (dget e.data "driver_id").asId with hdS
    set B : Props := [("status", dget e.data "status"),
      ("updated_at", Val.str ((some e.timestamp).getD now))] with hB
    set A : Props := [("updated_at", Val.str now)] with hA
    set OC : Props := [("created_at", Val.str now)] with hOC
    set Hg := matchSetNode "Driver" dS B (matchSetNode "Driver" dS A
      (mergeNode "Driver" dS OC g)) with hHg
    have hmerge : mergeNode "Driver" dS OC Hg = Hg := by
      apply mergeNode_eq_of_exists
      rw [hHg, nodeExists_matchSetNode, nodeExists_matchSetNode]
      exact nodeExists_mergeNode_self "Driver" dS OC g
    rw [hmerge]
    have habs : matchSetNode "Driver" dS B (matchSetNode "Driver" dS A Hg) =
        matchSetNode "Driver" dS B Hg := by
      rw [hB, hA]
      apply matchSetNode_pair_absorb "Driver" dS "updated_at" "status"
        (Val.str now) (dget e.data "status") (Val.str ((some e.timestamp).getD now)) Hg
        (by decide)
      rw [hHg, hB]
      apply hasKey_matchSetNode
      show "status" ∈ (["status", "updated_at"] : List String)
      decide
    rw [habs]
    apply matchSetNode_eq_of_hasVals
    rw [hHg]
    apply hasVals_matchSetNode_self
    rw [hB]
    show (["status", "updated_at"] : List String).Nodup
    decide
  · simp only [handle_driver_status_changed, hC, Bool.false_eq_true, if_false]

theorem handle_driver_location_updated_idem (e : Event) (g : Graph) :
    catchToGraph (catchToGraph g (handle_driver_location_updated e g))
      (handle_driver_location_updated e
        (catchToGraph g (handle_driver_location_updated e g))) =
      catchToGraph g (handle_driver_location_updated e g) := rfl

theorem handle_load_assigned_idem (now : String) (e : Event) (g : Graph) :
    handle_load_assigned now e (handle_load_assigned now e g) =
      handle_load_assigned now e g := by
  by_cases hL : (dget e.data "load_id").truthy
  case neg =>
    simp only [handle_load_assigned, Bool.not_eq_true] at hL ⊢
    rw [hL]
    simp
  case pos =>
    by_cases hD : (dget e.data "driver_id").truthy <;>
      by_cases hV : (dget e.data "vehicle_id").truthy
    · -- driver and vehicle both present
      simp only [handle_load_assigned, hL, hD, hV, Bool.not_true,
        Bool.false_eq_true, if_false, if_true]
      unfold create_driver_load_assignment create_vehicle_load_assignment
        create_driver_node_if_not_exists create_vehicle_node_if_not_exists
      set lS := (dget e.data "load_id").asId with hlS
      set dS := (dget e.data "driver_id").asId with hdS
      set vS := (dget e.data "vehicle_id").asId with hvS
      set KA : Props := [("assigned_at", Val.str ((some e.timestamp).getD now))] with hKA
      set A : Props := [("updated_at", Val.str now)] with hA
      set OC : Props := [("created_at", Val.str now)] with hOC
      set G1 := upsertNode "Driver" dS OC A g with hG1
      set G2 := mergeEdgeSet "ASSIGNED_TO" "Driver" dS "Load" lS KA G1 with hG2
      set G3 := upsertNode "Vehicle" vS OC A G2 with hG3
      set Hg := mergeEdgeSet "TRANSPORTS" "Vehicle" vS "Load" lS KA G3 with hHg
      have hndA : (A.map Prod.fst).Nodup := by
        rw [hA]
        show (["updated_at"] : List String).Nodup
        decide
      have hndKA : (KA.map Prod.fst).Nodup := by
        rw [hKA]
        show (["assigned_at"] : List String).Nodup
        decide
      have h1 : upsertNode "Driver" dS OC A Hg = Hg := by
        apply upsertNode_fix
        · rw [hHg, nodeExists_mergeEdgeSet, hG3]
          apply nodeExists_upsertNode_mono
          rw [hG2, nodeExists_mergeEdgeSet, hG1]
          exact nodeExists_upsertNode_self _ _ _ _ _
        · rw [hHg]
          apply hasVals_mergeEdgeSet
          rw [hG3]
          apply hasVals_upsertNode_ne _ _ _ _ _ _ _ (label_pair_ne (by decide) _ _)
          rw [hG2]
          apply hasVals_mergeEdgeSet
          rw [hG1]
          exact hasVals_upsertNode_self _ _ _ _ _ hndA
      have h2 : mergeEdgeSet "ASSIGNED_TO" "Driver" dS "Load" lS KA Hg = Hg := by
        by_cases hLoad : nodeExists g "Load" lS = true
        · apply mergeEdgeSet_eq_of_fix
          · rw [hHg, edgeExists_mergeEdgeSet_ne _ _ _ _ _ _ _ _ _ _ _ _
              (show "TRANSPORTS" ≠ "ASSIGNED_TO" by decide),
              hG3, edgeExists_upsertNode, hG2]
            apply edgeExists_mergeEdgeSet_self
            · rw [hG1]
              exact nodeExists_upsertNode_self _ _ _ _ _
            · rw [hG1]
              exact nodeExists_upsertNode_mono _ _ _ _ _ _ _ hLoad
          · rw [hHg]
            apply edgeHasVals_mergeEdgeSet_ne _ _ _ _ _ _ _ _ _ _ _ _ _
              (show "TRANSPORTS" ≠ "ASSIGNED_TO" by decide)
            rw [hG3]
            apply edgeHasVals_upsertNode
            rw [hG2]
            apply edgeHasVals_mergeEdgeSet_self _ _ _ _ _ _ _ hndKA
            · rw [hG1]
              exact nodeExists_upsertNode_self _ _ _ _ _
            · rw [hG1]
              exact nodeExists_upsertNode_mono _ _ _ _ _ _ _ hLoad
        · have hnl : nodeExists Hg "Load" lS = false := by
            rw [hHg, nodeExists_mergeEdgeSet, hG3,
              nodeExists_upsertNode_ne _ _ _ _ _ _ _ (label_pair_ne (by decide) _ _),
              hG2, nodeExists_mergeEdgeSet, hG1,
              nodeExists_upsertNode_ne _ _ _ _ _ _ _ (label_pair_ne (by decide) _ _)]
            exact Bool.eq_false_iff.mpr hLoad
          apply mergeEdgeSet_eq_of_not_endpoints
          rw [hnl]
          simp
      have h3 : upsertNode "Vehicle" vS OC A Hg = Hg := by
        apply upsertNode_fix
        · rw [hHg, nodeExists_mergeEdgeSet, hG3]
          exact nodeExists_upsertNode_self _ _ _ _ _
        · rw [hHg]
          apply hasVals_mergeEdgeSet
          rw [hG3]
          exact hasVals_upsertNode_self _ _ _ _ _ hndA
      have h4 : mergeEdgeSet "TRANSPORTS" "Vehicle" vS "Load" lS KA Hg = Hg := by
        by_cases hLoad : nodeExists g "Load" lS = true
        · have hexV3 : nodeExists G3 "Vehicle" vS = true := by
            rw [hG3]
            exact nodeExists_upsertNode_self _ _ _ _ _
          have hexL3 : nodeExists G3 "Load" lS = true := by
            rw [hG3]
            apply nodeExists_upsertNode_mono
            rw [hG2, nodeExists_mergeEdgeSet, hG1]
            exact nodeExists_upsertNode_mono _ _ _ _ _ _ _ hLoad
          apply mergeEdgeSet_eq_of_fix
          · rw [hHg]
            exact edgeExists_mergeEdgeSet_self _ _ _ _ _ _ _ hexV3 hexL3
          · rw [hHg]
            exact edgeHasVals_mergeEdgeSet_self _ _ _ _ _ _ _ hndKA hexV3 hexL3
        · have hnl : nodeExists Hg "Load" lS = false := by
            rw [hHg, nodeExists_mergeEdgeSet, hG3,
              nodeExists_upsertNode_ne _ _ _ _ _ _ _ (label_pair_ne (by decide) _ _),
              hG2, nodeExists_mergeEdgeSet, hG1,
              nodeExists_upsertNode_ne _ _ _ _ _ _ _ (label_pair_ne (by decide) _ _)]
            exact Bool.eq_false_iff.mpr hLoad
          apply mergeEdgeSet_eq_of_not_endpoints
          rw [hnl]
          simp
      rw [h1, h2, h3, h4]
    · -- driver only
      simp only [handle_load_assigned, hL, hD, hV, Bool.not_true,
        Bool.false_eq_true, if_false, if_true]
      unfold create_driver_load_assignment create_driver_node_if_not_exists
      set lS := (dget e.data "load_id").asId with hlS
      set dS := (dget e.data "driver_id").asId with hdS
      set KA : Props := [("assigned_at", Val.str ((some e.timestamp).getD now))] with hKA
      set A : Props := [("updated_at", Val.str now)] with hA
      set OC : Props := [("created_at", Val.str now)] with hOC
      set G1 := upsertNode "Driver" dS OC A g with hG1
      set Hg := mergeEdgeSet "ASSIGNED_TO" "Driver" dS "Load" lS KA G1 with hHg
      have hndA : (A.map Prod.fst).Nodup := by
        rw [hA]
        show (["updated_at"] : List String).Nodup
        decide
      have hndKA : (KA.map Prod.fst).Nodup := by
        rw [hKA]
        show (["assigned_at"] : List String).Nodup
        decide
      have h1 : upsertNode "Driver" dS OC A Hg = Hg := by
        apply upsertNode_fix
        · rw [hHg, nodeExists_mergeEdgeSet, hG1]
          exact nodeExists_upsertNode_self _ _ _ _ _
        · rw [hHg]
          apply hasVals_mergeEdgeSet
          rw [hG1]
          exact hasVals_upsertNode_self _ _ _ _ _ hndA
      have h2 : mergeEdgeSet "ASSIGNED_TO" "Driver" dS "Load" lS KA Hg = Hg := by
        by_cases hLoad : nodeExists g "Load" lS = true
        · have hexD1 : nodeExists G1 "Driver" dS = true := by
            rw [hG1]
            exact nodeExists_upsertNode_self _ _ _ _ _
          have hexL1 : nodeExists G1 "Load" lS = true := by
            rw [hG1]
            exact nodeExists_upsertNode_mono _ _ _ _ _ _ _ hLoad
          apply mergeEdgeSet_eq_of_fix
          · rw [hHg]
            exact edgeExists_mergeEdgeSet_self _ _ _ _ _ _ _ hexD1 hexL1
          · rw [hHg]
            exact edgeHasVals_mergeEdgeSet_self _ _ _ _ _ _ _ hndKA hexD1 hexL1
        · have hnl : nodeExists Hg "Load" lS = false := by
            rw [hHg, nodeExists_mergeEdgeSet, hG1,
              nodeExists_upsertNode_ne _ _ _ _ _ _ _ (label_pair_ne (by decide) _ _)]
            exact Bool.eq_false_iff.mpr hLoad
          apply mergeEdgeSet_eq_of_not_endpoints
          rw [hnl]
          simp
      rw [h1, h2]
    · -- vehicle only
      simp only [handle_load_assigned, hL, hD, hV, Bool.not_true,
        Bool.false_eq_true, if_false, if_true]
      unfold create_vehicle_load_assignment create_vehicle_node_if_not_exists
      set lS := (dget e.data "load_id").asId with hlS
      set vS := (dget e.data "vehicle_id").asId with hvS
      set KA : Props := [("assigned_at", Val.str ((some e.timestamp).getD now))] with hKA
      set A : Props := [("updated_at", Val.str now)] with hA
      set OC : Props := [("created_at", Val.str now)] with hOC
      set G1 := upsertNode "Vehicle" vS OC A g with hG1
      set Hg := mergeEdgeSet "TRANSPORTS" "Vehicle" vS "Load" lS KA G1 with hHg
      have hndA : (A.map Prod.fst).Nodup := by
        rw [hA]
        show (["updated_at"] : List String).Nodup
        decide
      have hndKA : (KA.map Prod.fst).Nodup := by
        rw [hKA]
        show (["assigned_at"] : List String).Nodup
        decide
      have h1 : upsertNode "Vehicle" vS OC A Hg = Hg := by
        apply upsertNode_fix
        · rw [hHg, nodeExists_mergeEdgeSet, hG1]
          exact nodeExists_upsertNode_self _ _ _ _ _
        · rw [hHg]
          apply hasVals_mergeEdgeSet
          rw [hG1]
          exact hasVals_upsertNode_self _ _ _ _ _ hndA
      have h2 : mergeEdgeSet "TRANSPORTS" "Vehicle" vS "Load" lS KA Hg = Hg := by
        by_cases hLoad : nodeExists g "Load" lS = true
        · have hexV1 : nodeExists G1 "Vehicle" vS = true := by
            rw [hG1]
            exact nodeExists_upsertNode_self _ _ _ _ _
          have hexL1 : nodeExists G1 "Load" lS = true := by
            rw [hG1]
            exact nodeExists_upsertNode_mono _ _ _ _ _ _ _ hLoad
          apply mergeEdgeSet_eq_of_fix
          · rw [hHg]
            exact edgeExists_mergeEdgeSet_self _ _ _ _ _ _ _ hexV1 hexL1
          · rw [hHg]
            exact edgeHasVals_mergeEdgeSet_self _ _ _ _ _ _ _ hndKA hexV1 hexL1
        · have hnl : nodeExists Hg "Load" lS = false := by
            rw [hHg, nodeExists_mergeEdgeSet, hG1,
              nodeExists_upsertNode_ne _ _ _ _ _ _ _ (label_pair_ne (by decide) _ _)]
            exact Bool.eq_false_iff.mpr hLoad
          apply mergeEdgeSet_eq_of_not_endpoints
          rw [hnl]
          simp
      rw [h1, h2]
    · -- neither driver nor vehicle id present
      simp only [handle_load_assigned, hL, hD, hV, Bool.not_true,
        Bool.false_eq_true, if_false, if_true]

theorem handle_vehicle_assigned_idem (now : String) (e : Event) (g : Graph) :
    handle_vehicle_assigned now e (handle_vehicle_assigned now e g) =
      handle_vehicle_assigned now e g := by
  by_cases hV : (dget e.data "vehicle_id").truthy
  case neg =>
    simp only [handle_vehicle_assigned, Bool.not_eq_true] at hV ⊢
    rw [hV]
    simp
  case pos =>
    by_cases hC : (dget e.data "carrier_id").truthy <;>
      by_cases hD : (dget e.data "driver_id").truthy
    · -- carrier and driver both present
      simp only [handle_vehicle_assigned, hV, hC, hD, Bool.not_true,
        Bool.false_eq_true, if_false, if_true]
      unfold create_vehicle_carrier_relationship create_driver_vehicle_relationship
        create_driver_node_if_not_exists create_vehicle_node_if_not_exists
      set vS := (dget e.data "vehicle_id").asId with hvS
      set cS := (dget e.data "carrier_id").asId with hcS
      set dS := (dget e.data "driver_id").asId with hdS
      set KA : Props := [("assigned_at", Val.str ((some e.timestamp).getD now))] with hKA
      set A : Props := [("updated_at", Val.str now)] with hA
      set OC : Props := [("created_at", Val.str now)] with hOC
      set G1 := upsertNode "Vehicle" vS OC A g with hG1
      set G2 := mergeEdgeSet "OWNED_BY" "Vehicle" vS "Carrier" cS [] G1 with hG2
      set G3 := upsertNode "Driver" dS OC A G2 with hG3
      set Hg := mergeEdgeSet "DRIVES" "Driver" dS "Vehicle" vS KA G3 with hHg
      have hndA : (A.map Prod.fst).Nodup := by
        rw [hA]
        show (["updated_at"] : List String).Nodup
        decide
      have hndKA : (KA.map Prod.fst).Nodup := by
        rw [hKA]
        show (["assigned_at"] : List String).Nodup
        decide
      have h1 : upsertNode "Vehicle" vS OC A Hg = Hg := by
        apply upsertNode_fix
        · rw [hHg, nodeExists_mergeEdgeSet, hG3]
          apply nodeExists_upsertNode_mono
          rw [hG2, nodeExists_mergeEdgeSet, hG1]
          exact nodeExists_upsertNode_self _ _ _ _ _
        · rw [hHg]
          apply hasVals_mergeEdgeSet
          rw [hG3]
          apply hasVals_upsertNode_ne _ _ _ _ _ _ _ (label_pair_ne (by decide) _ _)
          rw [hG2]
          apply hasVals_mergeEdgeSet
          rw [hG1]
          exact hasVals_upsertNode_self _ _ _ _ _ hndA
      have h2 : mergeEdgeSet "OWNED_BY" "Vehicle" vS "Carrier" cS [] Hg = Hg := by
        by_cases hCar : nodeExists g "Carrier" cS = true
        · apply mergeEdgeSet_eq_of_fix
          · rw [hHg, edgeExists_mergeEdgeSet_ne _ _ _ _ _ _ _ _ _ _ _ _
              (show "DRIVES" ≠ "OWNED_BY" by decide),
              hG3, edgeExists_upsertNode, hG2]
            apply edgeExists_mergeEdgeSet_self
            · rw [hG1]
              exact nodeExists_upsertNode_self _ _ _ _ _
            · rw [hG1]
              exact nodeExists_upsertNode_mono _ _ _ _ _ _ _ hCar
          · exact edgeHasVals_nil Hg "OWNED_BY" "Vehicle" vS "Carrier" cS
        · have hnc : nodeExists Hg "Carrier" cS = false := by
            rw [hHg, nodeExists_mergeEdgeSet, hG3,
              nodeExists_upsertNode_ne _ _ _ _ _ _ _ (label_pair_ne (by decide) _ _),
              hG2, nodeExists_mergeEdgeSet, hG1,
              nodeExists_upsertNode_ne _ _ _ _ _ _ _ (label_pair_ne (by decide) _ _)]
            exact Bool.eq_false_iff.mpr hCar
          apply mergeEdgeSet_eq_of_not_endpoints
          rw [hnc]
          simp
      have h3 : upsertNode "Driver" dS OC A Hg = Hg := by
        apply upsertNode_fix
        · rw [hHg, nodeExists_mergeEdgeSet, hG3]
          exact nodeExists_upsertNode_self _ _ _ _ _
        · rw [hHg]
          apply hasVals_mergeEdgeSet
          rw [hG3]
          exact hasVals_upsertNode_self _ _ _ _ _ hndA
      have h4 : mergeEdgeSet "DRIVES" "Driver" dS "Vehicle" vS KA Hg = Hg := by
        have hexD3 : nodeExists G3 "Driver" dS = true := by
          rw [hG3]
          exact nodeExists_upsertNode_self _ _ _ _ _
        have hexV3 : nodeExists G3 "Vehicle" vS = true := by
          rw [hG3]
          apply nodeExists_upsertNode_mono
          rw [hG2, nodeExists_mergeEdgeSet, hG1]
          exact nodeExists_upsertNode_self _ _ _ _ _
        apply mergeEdgeSet_eq_of_fix
        · rw [hHg]
          exact edgeExists_mergeEdgeSet_self _ _ _ _ _ _ _ hexD3 hexV3
        · rw [hHg]
          exact edgeHasVals_mergeEdgeSet_self _ _ _ _ _ _ _ hndKA hexD3 hexV3
      rw [h1, h2, h3, h4]
    · -- carrier only
      simp only [handle_vehicle_assigned, hV, hC, hD, Bool.not_true,
        Bool.false_eq_true, if_false, if_true]
      unfold create_vehicle_carrier_relationship create_vehicle_node_if_not_exists
      set vS := (dget e.data "vehicle_id").asId with hvS
      set cS := (dget e.data "carrier_id").asId with hcS
      set A : Props := [("updated_at", Val.str now)] with hA
      set OC : Props := [("created_at", Val.str now)] with hOC
      set G1 := upsertNode "Vehicle" vS OC A g with hG1
      set Hg := mergeEdgeSet "OWNED_BY" "Vehicle" vS "Carrier" cS [] G1 with hHg
      have hndA : (A.map Prod.fst).Nodup := by
        rw [hA]
        show (["updated_at"] : List String).Nodup
        decide
      have h1 : upsertNode "Vehicle" vS OC A Hg = Hg := by
        apply upsertNode_fix
        · rw [hHg, nodeExists_mergeEdgeSet, hG1]
          exact nodeExists_upsertNode_self _ _ _ _ _
        · rw [hHg]
          apply hasVals_mergeEdgeSet
          rw [hG1]
          exact hasVals_upsertNode_self _ _ _ _ _ hndA
      have h2 : mergeEdgeSet "OWNED_BY" "Vehicle" vS "Carrier" cS [] Hg = Hg := by
        by_cases hCar : nodeExists g "Carrier" cS = true
        · have hexV1 : nodeExists G1 "Vehicle" vS = true := by
            rw [hG1]
            exact nodeExists_upsertNode_self _ _ _ _ _
          have hexC1 : nodeExists G1 "Carrier" cS = true := by
            rw [hG1]
            exact nodeExists_upsertNode_mono _ _ _ _ _ _ _ hCar
          apply mergeEdgeSet_eq_of_fix
          · rw [hHg]
            exact edgeExists_mergeEdgeSet_self _ _ _ _ _ _ _ hexV1 hexC1
          · exact edgeHasVals_nil Hg "OWNED_BY" "Vehicle" vS "Carrier" cS
        · have hnc : nodeExists Hg "Carrier" cS = false := by
            rw [hHg, nodeExists_mergeEdgeSet, hG1,
              nodeExists_upsertNode_ne _ _ _ _ _ _ _ (label_pair_ne (by decide) _ _)]
            exact Bool.eq_false_iff.mpr hCar
          apply mergeEdgeSet_eq_of_not_endpoints
          rw [hnc]
          simp
      rw [h1, h2]
    · -- driver only
      simp only [handle_vehicle_assigned, hV, hC, hD, Bool.not_true,
        Bool.false_eq_true, if_false, if_true]
      unfold create_driver_vehicle_relationship create_driver_node_if_not_exists
        create_vehicle_node_if_not_exists
      set vS := (dget e.data "vehicle_id").asId with hvS
      set dS := (dget e.data "driver_id").asId with hdS
      set KA : Props := [("assigned_at", Val.str ((some e.timestamp).getD now))] with hKA
      set A : Props := [("updated_at", Val.str now)] with hA
      set OC : Props := [("created_at", Val.str now)] with hOC
      set G1 := upsertNode "Vehicle" vS OC A g with hG1
      set G3 := upsertNode "Driver" dS OC A G1 with hG3
      set Hg := mergeEdgeSet "DRIVES" "Driver" dS "Vehicle" vS KA G3 with hHg
      have hndA : (A.map Prod.fst).Nodup := by
        rw [hA]
        show (["updated_at"] : List String).Nodup
        decide
      have hndKA : (KA.map Prod.fst).Nodup := by
        rw [hKA]
        show (["assigned_at"] : List String).Nodup
        decide
      have h1 : upsertNode "Vehicle" vS OC A Hg = Hg := by
        apply upsertNode_fix
        · rw [hHg, nodeExists_mergeEdgeSet, hG3]
          apply nodeExists_upsertNode_mono
          rw [hG1]
          exact nodeExists_upsertNode_self _ _ _ _ _
        · rw [hHg]
          apply hasVals_mergeEdgeSet
          rw [hG3]
          apply hasVals_upsertNode_ne _ _ _ _ _ _ _ (label_pair_ne (by decide) _ _)
          rw [hG1]
          exact hasVals_upsertNode_self _ _ _ _ _ hndA
      have h3 : upsertNode "Driver" dS OC A Hg = Hg := by
        apply upsertNode_fix
        · rw [hHg, nodeExists_mergeEdgeSet, hG3]
          exact nodeExists_upsertNode_self _ _ _ _ _
        · rw [hHg]
          apply hasVals_mergeEdgeSet
          rw [hG3]
          exact hasVals_upsertNode_self _ _ _ _ _ hndA
      have h4 : mergeEdgeSet "DRIVES" "Driver" dS "Vehicle" vS KA Hg = Hg := by
        have hexD3 : nodeExists G3 "Driver" dS = true := by
          rw [hG3]
          exact nodeExists_upsertNode_self _ _ _ _ _
        have hexV3 : nodeExists G3 "Vehicle" vS = true := by
          rw [hG3]
          apply nodeExists_upsertNode_mono
          rw [hG1]
          exact nodeExists_upsertNode_self _ _ _ _ _
        apply mergeEdgeSet_eq_of_fix
        · rw [hHg]
          exact edgeExists_mergeEdgeSet_self _ _ _ _ _ _ _ hexD3 hexV3
        · rw [hHg]
          exact edgeHasVals_mergeEdgeSet_self _ _ _ _ _ _ _ hndKA hexD3 hexV3
      rw [h1, h3, h4]
    · -- vehicle only
      simp only [handle_vehicle_assigned, hV, hC, hD, Bool.not_true,
        Bool.false_eq_true, if_false, if_true]
      unfold create_vehicle_node_if_not_exists
      set vS := (dget e.data "vehicle_id").asId with hvS
      set A : Props := [("updated_at", Val.str now)] with hA
      set OC : Props := [("created_at", Val.str now)] with hOC
      have hndA : (A.map Prod.fst).Nodup := by
        rw [hA]
        show (["updated_at"] : List String).Nodup
        decide
      exact upsertNode_fix "Vehicle" vS OC A (upsertNode "Vehicle" vS OC A g)
        (nodeExists_upsertNode_self _ _ _ _ _)
        (hasVals_upsertNode_self _ _ _ _ _ hndA)

theorem handle_driver_assigned_idem (now : String) (e : Event) (g : Graph) :
    handle_driver_assigned now e (handle_driver_assigned now e g) =
      handle_driver_assigned now e g := by
  by_cases hD : (dget e.data "driver_id").truthy
  case neg =>
    simp only [handle_driver_assigned, Bool.not_eq_true] at hD ⊢
    rw [hD]
    simp
  case pos =>
    by_cases hL : (dget e.data "load_id").truthy <;>
      by_cases hV : (dget e.data "vehicle_id").truthy
    · -- load and vehicle both present
      simp only [handle_driver_assigned, hD, hL, hV, Bool.not_true,
        Bool.false_eq_true, if_false, if_true]
      unfold create_driver_load_assignment create_driver_vehicle_relationship
        create_driver_node_if_not_exists
      set dS := (dget e.data "driver_id").asId with hdS
      set lS := (dget e.data "load_id").asId with hlS
      set vS := (dget e.data "vehicle_id").asId with hvS
      set KA : Props := [("assigned_at", Val.str ((some e.timestamp).getD now))] with hKA
      set A : Props := [("updated_at", Val.str now)] with hA
      set OC : Props := [("created_at", Val.str now)] with hOC
      set G1 := upsertNode "Driver" dS OC A g with hG1
      set G2 := mergeEdgeSet "ASSIGNED_TO" "Driver" dS "Load" lS KA G1 with hG2
      set Hg := mergeEdgeSet "DRIVES" "Driver" dS "Vehicle" vS KA G2 with hHg
      have hndA : (A.map Prod.fst).Nodup := by
        rw [hA]
        show (["updated_at"] : List String).Nodup
        decide
      have hndKA : (KA.map Prod.fst).Nodup := by
        rw [hKA]
        show (["assigned_at"] : List String).Nodup
        decide
      have h1 : upsertNode "Driver" dS OC A Hg = Hg := by
        apply upsertNode_fix
        · rw [hHg, nodeExists_mergeEdgeSet, hG2, nodeExists_mergeEdgeSet, hG1]
          exact nodeExists_upsertNode_self _ _ _ _ _
        · rw [hHg]
          apply hasVals_mergeEdgeSet
          rw [hG2]
          apply hasVals_mergeEdgeSet
          rw [hG1]
          exact hasVals_upsertNode_self _ _ _ _ _ hndA
      have h2 : mergeEdgeSet "ASSIGNED_TO" "Driver" dS "Load" lS KA Hg = Hg := by
        by_cases hLoad : nodeExists g "Load" lS = true
        · have hexD1 : nodeExists G1 "Driver" dS = true := by
            rw [hG1]
            exact nodeExists_upsertNode_self _ _ _ _ _
          have hexL1 : nodeExists G1 "Load" lS = true := by
            rw [hG1]
            exact nodeExists_upsertNode_mono _ _ _ _ _ _ _ hLoad
          apply mergeEdgeSet_eq_of_fix
          · rw [hHg, edgeExists_mergeEdgeSet_ne _ _ _ _ _ _ _ _ _ _ _ _
              (show "DRIVES" ≠ "ASSIGNED_TO" by decide), hG2]
            exact edgeExists_mergeEdgeSet_self _ _ _ _ _ _ _ hexD1 hexL1
          · rw [hHg]
            apply edgeHasVals_mergeEdgeSet_ne _ _ _ _ _ _ _ _ _ _ _ _ _
              (show "DRIVES" ≠ "ASSIGNED_TO" by decide)
            rw [hG2]
            exact edgeHasVals_mergeEdgeSet_self _ _ _ _ _ _ _ hndKA hexD1 hexL1
        · have hnl : nodeExists Hg "Load" lS = false := by
            rw [hHg, nodeExists_mergeEdgeSet, hG2, nodeExists_mergeEdgeSet, hG1,
              nodeExists_upsertNode_ne _ _ _ _ _ _ _ (label_pair_ne (by decide) _ _)]
            exact Bool.eq_false_iff.mpr hLoad
          apply mergeEdgeSet_eq_of_not_endpoints
          rw [hnl]
          simp
      have h3 : mergeEdgeSet "DRIVES" "Driver" dS "Vehicle" vS KA Hg = Hg := by
        by_cases hVeh : nodeExists g "Vehicle" vS = true
        · have hexD2 : nodeExists G2 "Driver" dS = true := by
            rw [hG2, nodeExists_mergeEdgeSet, hG1]
            exact nodeExists_upsertNode_self _ _ _ _ _
          have hexV2 : nodeExists G2 "Vehicle" vS = true := by
            rw [hG2, nodeExists_mergeEdgeSet, hG1]
            exact nodeExists_upsertNode_mono _ _ _ _ _ _ _ hVeh
          apply mergeEdgeSet_eq_of_fix
          · rw [hHg]
            exact edgeExists_mergeEdgeSet_self _ _ _ _ _ _ _ hexD2 hexV2
          · rw [hHg]
            exact edgeHasVals_mergeEdgeSet_self _ _ _ _ _ _ _ hndKA hexD2 hexV2
        · have hnv : nodeExists Hg "Vehicle" vS = false := by
            rw [hHg, nodeExists_mergeEdgeSet, hG2, nodeExists_mergeEdgeSet, hG1,
              nodeExists_upsertNode_ne _ _ _ _ _ _ _ (label_pair_ne (by decide) _ _)]
            exact Bool.eq_false_iff.mpr hVeh
          apply mergeEdgeSet_eq_of_not_endpoints
          rw [hnv]
          simp
      rw [h1, h2, h3]
    · -- load only
      simp only [handle_driver_assigned, hD, hL, hV, Bool.not_true,
        Bool.false_eq_true, if_false, if_true]
      unfold create_driver_load_assignment create_driver_node_if_not_exists
      set dS := (dget e.data "driver_id").asId with hdS
      set lS := (dget e.data "load_id").asId with hlS
      set KA : Props := [("assigned_at", Val.str ((some e.timestamp).getD now))] with hKA
      set A : Props := [("updated_at", Val.str now)] with hA
      set OC : Props := [("created_at", Val.str now)] with hOC
      set G1 := upsertNode "Driver" dS OC A g with hG1
      set Hg := mergeEdgeSet "ASSIGNED_TO" "Driver" dS "Load" lS KA G1 with hHg
      have hndA : (A.map Prod.fst).Nodup := by
        rw [hA]
        show (["updated_at"] : List String).Nodup
        decide
      have hndKA : (KA.map Prod.fst).Nodup := by
        rw [hKA]
        show (["assigned_at"] : List String).Nodup
        decide
      have h1 : upsertNode "Driver" dS OC A Hg = Hg := by
        apply upsertNode_fix
        · rw [hHg, nodeExists_mergeEdgeSet, hG1]
          exact nodeExists_upsertNode_self _ _ _ _ _
        · rw [hHg]
          apply hasVals_mergeEdgeSet
          rw [hG1]
          exact hasVals_upsertNode_self _ _ _ _ _ hndA
      have h2 : mergeEdgeSet "ASSIGNED_TO" "Driver" dS "Load" lS KA Hg = Hg := by
        by_cases hLoad : nodeExists g "Load" lS = true
        · have hexD1 : nodeExists G1 "Driver" dS = true := by
            rw [hG1]
            exact nodeExists_upsertNode_self _ _ _ _ _
          have hexL1 : nodeExists G1 "Load" lS = true := by
            rw [hG1]
            exact nodeExists_upsertNode_mono _ _ _ _ _ _ _ hLoad
          apply mergeEdgeSet_eq_of_fix
          · rw [hHg]
            exact edgeExists_mergeEdgeSet_self _ _ _ _ _ _ _ hexD1 hexL1
          · rw [hHg]
            exact edgeHasVals_mergeEdgeSet_self _ _ _ _ _ _ _ hndKA hexD1 hexL1
        · have hnl : nodeExists Hg "Load" lS = false := by
            rw [hHg, nodeExists_mergeEdgeSet, hG1,
              nodeExists_upsertNode_ne _ _ _ _ _ _ _ (label_pair_ne (by decide) _ _)]
            exact Bool.eq_false_iff.mpr hLoad
          apply mergeEdgeSet_eq_of_not_endpoints
          rw [hnl]
          simp
      rw [h1, h2]
    · -- vehicle only
      simp only [handle_driver_assigned, hD, hL, hV, Bool.not_true,
        Bool.false_eq_true, if_false, if_true]
      unfold create_driver_vehicle_relationship create_driver_node_if_not_exists
      set dS := (dget e.data "driver_id").asId with hdS
      set vS := (dget e.data "vehicle_id").asId with hvS
      set KA : Props := [("assigned_at", Val.str ((some e.timestamp).getD now))] with hKA
      set A : Props := [("updated_at", Val.str now)] with hA
      set OC : Props := [("created_at", Val.str now)] with hOC
      set G1 := upsertNode "Driver" dS OC A g with hG1
      set Hg := mergeEdgeSet "DRIVES" "Driver" dS "Vehicle" vS KA G1 with hHg
      have hndA : (A.map Prod.fst).Nodup := by
        rw [hA]
        show (["updated_at"] : List String).Nodup
        decide
      have hndKA : (KA.map Prod.fst).Nodup := by
        rw [hKA]
        show (["assigned_at"] : List String).Nodup
        decide
      have h1 : upsertNode "Driver" dS OC A Hg = Hg := by
        apply upsertNode_fix
        · rw [hHg, nodeExists_mergeEdgeSet, hG1]
          exact nodeExists_upsertNode_self _ _ _ _ _
        · rw [hHg]
          apply hasVals_mergeEdgeSet
          rw [hG1]
          exact hasVals_upsertNode_self _ _ _ _ _ hndA
      have h2 : mergeEdgeSet "DRIVES" "Driver" dS "Vehicle" vS KA Hg = Hg := by
        by_cases hVeh : nodeExists g "Vehicle" vS = true
        · have hexD1 : nodeExists G1 "Driver" dS = true := by
            rw [hG1]
            exact nodeExists_upsertNode_self _ _ _ _ _
          have hexV1 : nodeExists G1 "Vehicle" vS = true := by
            rw [hG1]
            exact nodeExists_upsertNode_mono _ _ _ _ _ _ _ hVeh
          apply mergeEdgeSet_eq_of_fix
          · rw [hHg]
            exact edgeExists_mergeEdgeSet_self _ _ _ _ _ _ _ hexD1 hexV1
          · rw [hHg]
            exact edgeHasVals_mergeEdgeSet_self _ _ _ _ _ _ _ hndKA hexD1 hexV1
        · have hnv : nodeExists Hg "Vehicle" vS = false := by
            rw [hHg, nodeExists_mergeEdgeSet, hG1,
              nodeExists_upsertNode_ne _ _ _ _ _ _ _ (label_pair_ne (by decide) _ _)]
            exact Bool.eq_false_iff.mpr hVeh
          apply mergeEdgeSet_eq_of_not_endpoints
          rw [hnv]
          simp
      rw [h1, h2]
    · -- driver only
      simp only [handle_driver_assigned, hD, hL, hV, Bool.not_true,
        Bool.false_eq_true, if_false, if_true]
      unfold create_driver_node_if_not_exists
      set dS := (dget e.data "driver_id").asId with hdS
      set A : Props := [("updated_at", Val.str now)] with hA
      set OC : Props := [("created_at", Val.str now)] with hOC
      have hndA : (A.map Prod.fst).Nodup := by
        rw [hA]
        show (["updated_at"] : List String).Nodup
        decide
      exact upsertNode_fix "Driver" dS OC A (upsertNode "Driver" dS OC A g)
        (nodeExists_upsertNode_self _ _ _ _ _)
        (hasVals_upsertNode_self _ _ _ _ _ hndA)

/-- Fixpoint of one of the optional route relationship merges: the edge
merge is a no-op on a graph in which either the target node is (still)
absent, or the edge has already been merged with no properties to set. -/
theorem route_edge_fix (T L2 rS i2 : String) (g0 G : Graph)
    (hTarget : nodeExists G L2 i2 = nodeExists g0 L2 i2)
    (hEdge : nodeExists g0 L2 i2 = true →
      edgeExists G T "Route" rS L2 i2 = true) :
    mergeEdgeSet T "Route" rS L2 i2 [] G = G := by
  by_cases h : nodeExists g0 L2 i2 = true
  · exact mergeEdgeSet_eq_of_fix _ _ _ _ _ _ _ (hEdge h)
      (edgeHasVals_nil G T "Route" rS L2 i2)
  · apply mergeEdgeSet_eq_of_not_endpoints
    rw [hTarget, Bool.eq_false_iff.mpr h]
    simp

theorem handle_route_optimized_idem (now : String) (e : Event) (g : Graph) :
    handle_route_optimized now e (handle_route_optimized now e g) =
      handle_route_optimized now e g := by
  by_cases hR : (dget e.data "route_id").truthy
  case neg =>
    simp only [handle_route_optimized, Bool.not_eq_true] at hR ⊢
    rw [hR]
    simp
  case pos =>
    by_cases hL : (dget e.data "load_id").truthy <;>
      by_cases hD : (dget e.data "driver_id").truthy <;>
      by_cases hV : (dget e.data "vehicle_id").truthy
    · -- load, driver, vehicle all present
      simp only [handle_route_optimized, hR, hL, hD, hV, Bool.not_true,
        Bool.false_eq_true, if_false, if_true]
      unfold create_route_node create_route_load_relationship
        create_route_driver_relationship create_route_vehicle_relationship
      set rS := (dget e.data "route_id").asId with hrS
      set lS := (dget e.data "load_id").asId with hlS
      set dS := (dget e.data "driver_id").asId with hdS
      set vS := (dget e.data "vehicle_id").asId with hvS
      set KR : Props := [("load_id", Val.str lS),
        ("distance", dget e.data "distance"),
        ("duration", dget e.data "duration"),
        ("optimized_at", Val.str e.timestamp),
        ("status", Val.str "ACTIVE"),
        ("updated_at", Val.str now)] with hKR
      set G1 := upsertNode "Route" rS [] KR g with hG1
      set G2 := mergeEdgeSet "OPTIMIZES" "Route" rS "Load" lS [] G1 with hG2
      set G3 := mergeEdgeSet "EXECUTED_BY" "Route" rS "Driver" dS [] G2 with hG3
      set Hg := mergeEdgeSet "USES_VEHICLE" "Route" rS "Vehicle" vS [] G3 with hHg
      have hndK : (KR.map Prod.fst).Nodup := by
        rw [hKR]
        show (["load_id", "distance", "duration", "optimized_at", "status",
          "updated_at"] : List String).Nodup
        decide
      have hexR1 : nodeExists G1 "Route" rS = true := by
        rw [hG1]
        exact nodeExists_upsertNode_self _ _ _ _ _
      have h1 : upsertNode "Route" rS [] KR Hg = Hg := by
        apply upsertNode_fix
        · rw [hHg, nodeExists_mergeEdgeSet, hG3, nodeExists_mergeEdgeSet, hG2,
            nodeExists_mergeEdgeSet]
          exact hexR1
        · rw [hHg]
          apply hasVals_mergeEdgeSet
          rw [hG3]
          apply hasVals_mergeEdgeSet
          rw [hG2]
          apply hasVals_mergeEdgeSet
          rw [hG1]
          exact hasVals_upsertNode_self _ _ _ _ _ hndK
      have h2 : mergeEdgeSet "OPTIMIZES" "Route" rS "Load" lS [] Hg = Hg := by
        apply route_edge_fix "OPTIMIZES" "Load" rS lS g Hg
        · rw [hHg, nodeExists_mergeEdgeSet, hG3, nodeExists_mergeEdgeSet, hG2,
            nodeExists_mergeEdgeSet, hG1,
            nodeExists_upsertNode_ne _ _ _ _ _ _ _ (label_pair_ne (by decide) _ _)]
        · intro hLoad
          rw [hHg, edgeExists_mergeEdgeSet_ne _ _ _ _ _ _ _ _ _ _ _ _
              (show "USES_VEHICLE" ≠ "OPTIMIZES" by decide),
            hG3, edgeExists_mergeEdgeSet_ne _ _ _ _ _ _ _ _ _ _ _ _
              (show "EXECUTED_BY" ≠ "OPTIMIZES" by decide),
            hG2]
          exact edgeExists_mergeEdgeSet_self _ _ _ _ _ _ _ hexR1
            (hG1 ▸ nodeExists_upsertNode_mono _ _ _ _ _ _ _ hLoad)
      have h3 : mergeEdgeSet "EXECUTED_BY" "Route" rS "Driver" dS [] Hg = Hg := by
        apply route_edge_fix "EXECUTED_BY" "Driver" rS dS g Hg
        · rw [hHg, nodeExists_mergeEdgeSet, hG3, nodeExists_mergeEdgeSet, hG2,
            nodeExists_mergeEdgeSet, hG1,
            nodeExists_upsertNode_ne _ _ _ _ _ _ _ (label_pair_ne (by decide) _ _)]
        · intro hDrv
          rw [hHg, edgeExists_mergeEdgeSet_ne _ _ _ _ _ _ _ _ _ _ _ _
              (show "USES_VEHICLE" ≠ "EXECUTED_BY" by decide),
            hG3]
          apply edgeExists_mergeEdgeSet_self
          · rw [hG2, nodeExists_mergeEdgeSet]
            exact hexR1
          · rw [hG2, nodeExists_mergeEdgeSet, hG1]
            exact nodeExists_upsertNode_mono _ _ _ _ _ _ _ hDrv
      have h4 : mergeEdgeSet "USES_VEHICLE" "Route" rS "Vehicle" vS [] Hg = Hg := by
        apply route_edge_fix "USES_VEHICLE" "Vehicle" rS vS g Hg
        · rw [hHg, nodeExists_mergeEdgeSet, hG3, nodeExists_mergeEdgeSet, hG2,
            nodeExists_mergeEdgeSet, hG1,
            nodeExists_upsertNode_ne _ _ _ _ _ _ _ (label_pair_ne (by decide) _ _)]
        · intro hVeh
          rw [hHg]
          apply edgeExists_mergeEdgeSet_self
          · rw [hG3, nodeExists_mergeEdgeSet, hG2, nodeExists_mergeEdgeSet]
            exact hexR1
          · rw [hG3, nodeExists_mergeEdgeSet, hG2, nodeExists_mergeEdgeSet, hG1]
            exact nodeExists_upsertNode_mono _ _ _ _ _ _ _ hVeh
      rw [h1, h2, h3, h4]
    · -- load and driver present
      simp only [handle_route_optimized, hR, hL, hD, hV, Bool.not_true,
        Bool.false_eq_true, if_false, if_true]
      unfold create_route_node create_route_load_relationship
        create_route_driver_relationship
      set rS := (dget e.data "route_id").asId with hrS
      set lS := (dget e.data "load_id").asId with hlS
      set dS := (dget e.data "driver_id").asId with hdS
      set KR : Props := [("load_id", Val.str lS),
        ("distance", dget e.data "distance"),
        ("duration", dget e.data "duration"),
        ("optimized_at", Val.str e.timestamp),
        ("status", Val.str "ACTIVE"),
        ("updated_at", Val.str now)] with hKR
      set G1 := upsertNode "Route" rS [] KR g with hG1
      set G2 := mergeEdgeSet "OPTIMIZES" "Route" rS "Load" lS [] G1 with hG2
      set Hg := mergeEdgeSet "EXECUTED_BY" "Route" rS "Driver" dS [] G2 with hHg
      have hndK : (KR.map Prod.fst).Nodup := by
        rw [hKR]
        show (["load_id", "distance", "duration", "optimized_at", "status",
          "updated_at"] : List String).Nodup
        decide
      have hexR1 : nodeExists G1 "Route" rS = true := by
        rw [hG1]
        exact nodeExists_upsertNode_self _ _ _ _ _
      have h1 : upsertNode "Route" rS [] KR Hg = Hg := by
        apply upsertNode_fix
        · rw [hHg, nodeExists_mergeEdgeSet, hG2, nodeExists_mergeEdgeSet]
          exact hexR1
        · rw [hHg]
          apply hasVals_mergeEdgeSet
          rw [hG2]
          apply hasVals_mergeEdgeSet
          rw [hG1]
          exact hasVals_upsertNode_self _ _ _ _ _ hndK
      have h2 : mergeEdgeSet "OPTIMIZES" "Route" rS "Load" lS [] Hg = Hg := by
        apply route_edge_fix "OPTIMIZES" "Load" rS lS g Hg
        · rw [hHg, nodeExists_mergeEdgeSet, hG2, nodeExists_mergeEdgeSet, hG1,
            nodeExists_upsertNode_ne _ _ _ _ _ _ _ (label_pair_ne (by decide) _ _)]
        · intro hLoad
          rw [hHg, edgeExists_mergeEdgeSet_ne _ _ _ _ _ _ _ _ _ _ _ _
              (show "EXECUTED_BY" ≠ "OPTIMIZES" by decide),
            hG2]
          exact edgeExists_mergeEdgeSet_self _ _ _ _ _ _ _ hexR1
            (hG1 ▸ nodeExists_upsertNode_mono _ _ _ _ _ _ _ hLoad)
      have h3 : mergeEdgeSet "EXECUTED_BY" "Route" rS "Driver" dS [] Hg = Hg := by
        apply route_edge_fix "EXECUTED_BY" "Driver" rS dS g Hg
        · rw [hHg, nodeExists_mergeEdgeSet, hG2, nodeExists_mergeEdgeSet, hG1,
            nodeExists_upsertNode_ne _ _ _ _ _ _ _ (label_pair_ne (by decide) _ _)]
        · intro hDrv
          rw [hHg]
          apply edgeExists_mergeEdgeSet_self
          · rw [hG2, nodeExists_mergeEdgeSet]
            exact hexR1
          · rw [hG2, nodeExists_mergeEdgeSet, hG1]
            exact nodeExists_upsertNode_mono _ _ _ _ _ _ _ hDrv
      rw [h1, h2, h3]
    · -- load and vehicle present
      simp only [handle_route_optimized, hR, hL, hD, hV, Bool.not_true,
        Bool.false_eq_true, if_false, if_true]
      unfold create_route_node create_route_load_relationship
        create_route_vehicle_relationship
      set rS := (dget e.data "route_id").asId with hrS
      set lS := (dget e.data "load_id").asId with hlS
      set vS := (dget e.data "vehicle_id").asId with hvS
      set KR : Props := [("load_id", Val.str lS),
        ("distance", dget e.data "distance"),
        ("duration", dget e.data "duration"),
        ("optimized_at", Val.str e.timestamp),
        ("status", Val.str "ACTIVE"),
        ("updated_at", Val.str now)] with hKR
      set G1 := upsertNode "Route" rS [] KR g with hG1
      set G2 := mergeEdgeSet "OPTIMIZES" "Route" rS "Load" lS [] G1 with hG2
      set Hg := mergeEdgeSet "USES_VEHICLE" "Route" rS "Vehicle" vS [] G2 with hHg
      have hndK : (KR.map Prod.fst).Nodup := by
        rw [hKR]
        show (["load_id", "distance", "duration", "optimized_at", "status",
          "updated_at"] : List String).Nodup
        decide
      have hexR1 : nodeExists G1 "Route" rS = true := by
        rw [hG1]
        exact nodeExists_upsertNode_self _ _ _ _ _
      have h1 : upsertNode "Route" rS [] KR Hg = Hg := by
        apply upsertNode_fix
        · rw [hHg, nodeExists_mergeEdgeSet, hG2, nodeExists_mergeEdgeSet]
          exact hexR1
        · rw [hHg]
          apply hasVals_mergeEdgeSet
          rw [hG2]
          apply hasVals_mergeEdgeSet
          rw [hG1]
          exact hasVals_upsertNode_self _ _ _ _ _ hndK
      have h2 : mergeEdgeSet "OPTIMIZES" "Route" rS "Load" lS [] Hg = Hg := by
        apply route_edge_fix "OPTIMIZES" "Load" rS lS g Hg
        · rw [hHg, nodeExists_mergeEdgeSet, hG2, nodeExists_mergeEdgeSet, hG1,
            nodeExists_upsertNode_ne _ _ _ _ _ _ _ (label_pair_ne (by decide) _ _)]
        · intro hLoad
          rw [hHg, edgeExists_mergeEdgeSet_ne _ _ _ _ _ _ _ _ _ _ _ _
              (show "USES_VEHICLE" ≠ "OPTIMIZES" by decide),
            hG2]
          exact edgeExists_mergeEdgeSet_self _ _ _ _ _ _ _ hexR1
            (hG1 ▸ nodeExists_upsertNode_mono _ _ _ _ _ _ _ hLoad)
      have h3 : mergeEdgeSet "USES_VEHICLE" "Route" rS "Vehicle" vS [] Hg = Hg := by
        apply route_edge_fix "USES_VEHICLE" "Vehicle" rS vS g Hg
        · rw [hHg, nodeExists_mergeEdgeSet, hG2, nodeExists_mergeEdgeSet, hG1,
            nodeExists_upsertNode_ne _ _ _ _ _ _ _ (label_pair_ne (by decide) _ _)]
        · intro hVeh
          rw [hHg]
          apply edgeExists_mergeEdgeSet_self
          · rw [hG2, nodeExists_mergeEdgeSet]
            exact hexR1
          · rw [hG2, nodeExists_mergeEdgeSet, hG1]
            exact nodeExists_upsertNode_mono _ _ _ _ _ _ _ hVeh
      rw [h1, h2, h3]
    · -- load only
      simp only [handle_route_optimized, hR, hL, hD, hV, Bool.not_true,
        Bool.false_eq_true, if_false, if_true]
      unfold create_route_node create_route_load_relationship
      set rS := (dget e.data "route_id").asId with hrS
      set lS := (dget e.data "load_id").asId with hlS
      set KR : Props := [("load_id", Val.str lS),
        ("distance", dget e.data "distance"),
        ("duration", dget e.data "duration"),
        ("optimized_at", Val.str e.timestamp),
        ("status", Val.str "ACTIVE"),
        ("updated_at", Val.str now)] with hKR
      set G1 := upsertNode "Route" rS [] KR g with hG1
      set Hg := mergeEdgeSet "OPTIMIZES" "Route" rS "Load" lS [] G1 with hHg
      have hndK : (KR.map Prod.fst).Nodup := by
        rw [hKR]
        show (["load_id", "distance", "duration", "optimized_at", "status",
          "updated_at"] : List String).Nodup
        decide
      have hexR1 : nodeExists G1 "Route" rS = true := by
        rw [hG1]
        exact nodeExists_upsertNode_self _ _ _ _ _
      have h1 : upsertNode "Route" rS [] KR Hg = Hg := by
        apply upsertNode_fix
        · rw [hHg, nodeExists_mergeEdgeSet]
          exact hexR1
        · rw [hHg]
          apply hasVals_mergeEdgeSet
          rw [hG1]
          exact hasVals_upsertNode_self _ _ _ _ _ hndK
      have h2 : mergeEdgeSet "OPTIMIZES" "Route" rS "Load" lS [] Hg = Hg := by
        apply route_edge_fix "OPTIMIZES" "Load" rS lS g Hg
        · rw [hHg, nodeExists_mergeEdgeSet, hG1,
            nodeExists_upsertNode_ne _ _ _ _ _ _ _ (label_pair_ne (by decide) _ _)]
        · intro hLoad
          rw [hHg]
          exact edgeExists_mergeEdgeSet_self _ _ _ _ _ _ _ hexR1
            (hG1 ▸ nodeExists_upsertNode_mono _ _ _ _ _ _ _ hLoad)
      rw [h1, h2]
    · -- driver and vehicle present, no load id
      simp only [handle_route_optimized, hR, hL, hD, hV, Bool.not_true,
        Bool.false_eq_true, if_false, if_true]
      unfold create_route_node create_route_driver_relationship
        create_route_vehicle_relationship
      set rS := (dget e.data "route_id").asId with hrS
      set dS := (dget e.data "driver_id").asId with hdS
      set vS := (dget e.data "vehicle_id").asId with hvS
      set KR : Props := [("load_id", Val.null),
        ("distance", dget e.data "distance"),
        ("duration", dget e.data "duration"),
        ("optimized_at", Val.str e.timestamp),
        ("status", Val.str "ACTIVE"),
        ("updated_at", Val.str now)] with hKR
      set G1 := upsertNode "Route" rS [] KR g with hG1
      set G2 := mergeEdgeSet "EXECUTED_BY" "Route" rS "Driver" dS [] G1 with hG2
      set Hg := mergeEdgeSet "USES_VEHICLE" "Route" rS "Vehicle" vS [] G2 with hHg
      have hndK : (KR.map Prod.fst).Nodup := by
        rw [hKR]
        show (["load_id", "distance", "duration", "optimized_at", "status",
          "updated_at"] : List String).Nodup
        decide
      have hexR1 : nodeExists G1 "Route" rS = true := by
        rw [hG1]
        exact nodeExists_upsertNode_self _ _ _ _ _
      have h1 : upsertNode "Route" rS [] KR Hg = Hg := by
        apply upsertNode_fix
        · rw [hHg, nodeExists_mergeEdgeSet, hG2, nodeExists_mergeEdgeSet]
          exact hexR1
        · rw [hHg]
          apply hasVals_mergeEdgeSet
          rw [hG2]
          apply hasVals_mergeEdgeSet
          rw [hG1]
          exact hasVals_upsertNode_self _ _ _ _ _ hndK
      have h2 : mergeEdgeSet "EXECUTED_BY" "Route" rS "Driver" dS [] Hg = Hg := by
        apply route_edge_fix "EXECUTED_BY" "Driver" rS dS g Hg
        · rw [hHg, nodeExists_mergeEdgeSet, hG2, nodeExists_mergeEdgeSet, hG1,
            nodeExists_upsertNode_ne _ _ _ _ _ _ _ (label_pair_ne (by decide) _ _)]
        · intro hDrv
          rw [hHg, edgeExists_mergeEdgeSet_ne _ _ _ _ _ _ _ _ _ _ _ _
              (show "USES_VEHICLE" ≠ "EXECUTED_BY" by decide),
            hG2]
          exact edgeExists_mergeEdgeSet_self _ _ _ _ _ _ _ hexR1
            (hG1 ▸ nodeExists_upsertNode_mono _ _ _ _ _ _ _ hDrv)
      have h3 : mergeEdgeSet "USES_VEHICLE" "Route" rS "Vehicle" vS [] Hg = Hg := by
        apply route_edge_fix "USES_VEHICLE" "Vehicle" rS vS g Hg
        · rw [hHg, nodeExists_mergeEdgeSet, hG2, nodeExists_mergeEdgeSet, hG1,
            nodeExists_upsertNode_ne _ _ _ _ _ _ _ (label_pair_ne (by decide) _ _)]
        · intro hVeh
          rw [hHg]
          apply edgeExists_mergeEdgeSet_self
          · rw [hG2, nodeExists_mergeEdgeSet]
            exact hexR1
          · rw [hG2, nodeExists_mergeEdgeSet, hG1]
            exact nodeExists_upsertNode_mono _ _ _ _ _ _ _ hVeh
      rw [h1, h2, h3]
    · -- driver only, no load id
      simp only [handle_route_optimized, hR, hL, hD, hV, Bool.not_true,
        Bool.false_eq_true, if_false, if_true]
      unfold create_route_node create_route_driver_relationship
      set rS := (dget e.data "route_id").asId with hrS
      set dS := (dget e.data "driver_id").asId with hdS
      set KR : Props := [("load_id", Val.null),
        ("distance", dget e.data "distance"),
        ("duration", dget e.data "duration"),
        ("optimized_at", Val.str e.timestamp),
        ("status", Val.str "ACTIVE"),
        ("updated_at", Val.str now)] with hKR
      set G1 := upsertNode "Route" rS [] KR g with hG1
      set Hg := mergeEdgeSet "EXECUTED_BY" "Route" rS "Driver" dS [] G1 with hHg
      have hndK : (KR.map Prod.fst).Nodup := by
        rw [hKR]
        show (["load_id", "distance", "duration", "optimized_at", "status",
          "updated_at"] : List String).Nodup
        decide
      have hexR1 : nodeExists G1 "Route" rS = true := by
        rw [hG1]
        exact nodeExists_upsertNode_self _ _ _ _ _
      have h1 : upsertNode "Route" rS [] KR Hg = Hg := by
        apply upsertNode_fix
        · rw [hHg, nodeExists_mergeEdgeSet]
          exact hexR1
        · rw [hHg]
          apply hasVals_mergeEdgeSet
          rw [hG1]
          exact hasVals_upsertNode_self _ _ _ _ _ hndK
      have h2 : mergeEdgeSet "EXECUTED_BY" "Route" rS "Driver" dS [] Hg = Hg := by
        apply route_edge_fix "EXECUTED_BY" "Driver" rS dS g Hg
        · rw [hHg, nodeExists_mergeEdgeSet, hG1,
            nodeExists_upsertNode_ne _ _ _ _ _ _ _ (label_pair_ne (by decide) _ _)]
        · intro hDrv
          rw [hHg]
          exact edgeExists_mergeEdgeSet_self _ _ _ _ _ _ _ hexR1
            (hG1 ▸ nodeExists_upsertNode_mono _ _ _ _ _ _ _ hDrv)
      rw [h1, h2]
    · -- vehicle only, no load id
      simp only [handle_route_optimized, hR, hL, hD, hV, Bool.not_true,
        Bool.false_eq_true, if_false, if_true]
      unfold create_route_node create_route_vehicle_relationship
      set rS := (dget e.data "route_id").asId with hrS
      set vS := (dget e.data "vehicle_id").asId with hvS
      set KR : Props := [("load_id", Val.null),
        ("distance", dget e.data "distance"),
        ("duration", dget e.data "duration"),
        ("optimized_at", Val.str e.timestamp),
        ("status", Val.str "ACTIVE"),
        ("updated_at", Val.str now)] with hKR
      set G1 := upsertNode "Route" rS [] KR g with hG1
      set Hg := mergeEdgeSet "USES_VEHICLE" "Route" rS "Vehicle" vS [] G1 with hHg
      have hndK : (KR.map Prod.fst).Nodup := by
        rw [hKR]
        show (["load_id", "distance", "duration", "optimized_at", "status",
          "updated_at"] : List String).Nodup
        decide
      have hexR1 : nodeExists G1 "Route" rS = true := by
        rw [hG1]
        exact nodeExists_upsertNode_self _ _ _ _ _
      have h1 : upsertNode "Route" rS [] KR Hg = Hg := by
        apply upsertNode_fix
        · rw [hHg, nodeExists_mergeEdgeSet]
          exact hexR1
        · rw [hHg]
          apply hasVals_mergeEdgeSet
          rw [hG1]
          exact hasVals_upsertNode_self _ _ _ _ _ hndK
      have h2 : mergeEdgeSet "USES_VEHICLE" "Route" rS "Vehicle" vS [] Hg = Hg := by
        apply route_edge_fix "USES_VEHICLE" "Vehicle" rS vS g Hg
        · rw [hHg, nodeExists_mergeEdgeSet, hG1,
            nodeExists_upsertNode_ne _ _ _ _ _ _ _ (label_pair_ne (by decide) _ _)]
        · intro hVeh
          rw [hHg]
          exact edgeExists_mergeEdgeSet_self _ _ _ _ _ _ _ hexR1
            (hG1 ▸ nodeExists_upsertNode_mono _ _ _ _ _ _ _ hVeh)
      rw [h1, h2]
    · -- route id only
      simp only [handle_route_optimized, hR, hL, hD, hV, Bool.not_true,
        Bool.false_eq_true, if_false, if_true]
      unfold create_route_node
      set rS := (dget e.data "route_id").asId with hrS
      set KR : Props := [("load_id", Val.null),
        ("distance", dget e.data "distance"),
        ("duration", dget e.data "duration"),
        ("optimized_at", Val.str e.timestamp),
        ("status", Val.str "ACTIVE"),
        ("updated_at", Val.str now)] with hKR
      have hndK : (KR.map Prod.fst).Nodup := by
        rw [hKR]
        show (["load_id", "distance", "duration", "optimized_at", "status",
          "updated_at"] : List String).Nodup
        decide
      exact upsertNode_fix "Route" rS [] KR (upsertNode "Route" rS [] KR g)
        (nodeExists_upsertNode_self _ _ _ _ _)
        (hasVals_upsertNode_self _ _ _ _ _ hndK)

/-- Number of nodes carrying the given label and id; the invariant of the
spec is that this never exceeds one. -/
def countNodes (g : Graph) (l i : String) : Nat :=
  (g.nodes.filter fun n => nodeMatches n l i).length

theorem length_filter_map_eq {α : Type} (f : α → α) (p : α → Bool)
    (h : ∀ a, p (f a) = p a) (l : List α) :
    ((l.map f).filter p).length = (l.filter p).length := by
  induction l with
  | nil => rfl
  | cons a rest ih =>
      simp only [List.map_cons, List.filter_cons, h a]
      by_cases hp : p a
      · rw [if_pos hp, if_pos hp]
        simp [ih]
      · rw [if_neg hp, if_neg hp]
        exact ih

theorem countNodes_of_nodes_eq {g g' : Graph} (h : g'.nodes = g.nodes)
    (l i : String) : countNodes g' l i = countNodes g l i := by
  unfold countNodes
  rw [h]

theorem countNodes_matchSetNode (l i l' i' : String) (kvs : Props) (g : Graph) :
    countNodes (matchSetNode l' i' kvs g) l i = countNodes g l i := by
  unfold countNodes matchSetNode
  apply length_filter_map_eq
  intro n
  show nodeMatches (if nodeMatches n l' i' then
      { n with props := setVals n.props kvs } else n) l i = nodeMatches n l i
  split <;> rfl

theorem countNodes_mergeNode_of_exists (l i l' i' : String) (pr : Props)
    (g : Graph) (h : nodeExists g l' i' = true) :
    countNodes (mergeNode l' i' pr g) l i = countNodes g l i := by
  rw [mergeNode_eq_of_exists l' i' pr g h]

theorem countNodes_mergeNode_absent (l i : String) (pr : Props) (g : Graph)
    (h : nodeExists g l i = false) :
    countNodes (mergeNode l i pr g) l i = countNodes g l i + 1 := by
  unfold mergeNode
  rw [if_neg (by rw [h]; simp)]
  unfold countNodes
  simp only [List.filter_append, List.length_append]
  have : (List.filter (fun n => nodeMatches n l i) [(⟨l, i, pr⟩ : Node)]).length = 1 := by
    simp [List.filter_cons, nodeMatches_self]
  rw [this]

theorem countNodes_upsertNode_of_exists (l i l' i' : String) (oc kvs : Props)
    (g : Graph) (h : nodeExists g l' i' = true) :
    countNodes (upsertNode l' i' oc kvs g) l i = countNodes g l i := by
  unfold upsertNode
  rw [countNodes_matchSetNode, countNodes_mergeNode_of_exists l i l' i' oc g h]

theorem countNodes_upsertNode_absent (l i : String) (oc kvs : Props) (g : Graph)
    (h : nodeExists g l i = false) :
    countNodes (upsertNode l i oc kvs g) l i = countNodes g l i + 1 := by
  unfold upsertNode
  rw [countNodes_matchSetNode, countNodes_mergeNode_absent l i oc g h]

theorem countNodes_eq_zero_of_not_exists (l i : String) (g : Graph)
    (h : nodeExists g l i = false) : countNodes g l i = 0 := by
  unfold countNodes
  rw [List.length_eq_zero, List.filter_eq_nil_iff]
  intro n hn hm
  unfold nodeExists at h
  rw [← Bool.not_eq_true] at h
  exact h (List.any_eq_true.mpr ⟨n, hn, hm⟩)

theorem one_le_countNodes_of_exists (l i : String) (g : Graph)
    (h : nodeExists g l i = true) : 1 ≤ countNodes g l i := by
  unfold nodeExists at h
  obtain ⟨n, hn, hm⟩ := List.any_eq_true.mp h
  unfold countNodes
  have : n ∈ g.nodes.filter fun n => nodeMatches n l i :=
    List.mem_filter.mpr ⟨hn, hm⟩
  exact List.length_pos_of_mem this

theorem getNodeProp_of_hasVals (g : Graph) (l i k : String) (v : Val)
    (kvs : Props) (hv : NodeHasVals g l i kvs) (hex : nodeExists g l i = true)
    (hmem : (k, v) ∈ kvs) : getNodeProp g l i k = some v := by
  unfold getNodeProp findNode
  unfold nodeExists at hex
  obtain ⟨n0, hn0, hm0⟩ := List.any_eq_true.mp hex
  obtain ⟨n, hfind⟩ : ∃ n, g.nodes.find? (fun n => nodeMatches n l i) = some n := by
    have h1 : (g.nodes.find? fun n => nodeMatches n l i).isSome :=
      List.find?_isSome.mpr ⟨n0, hn0, hm0⟩
    exact Option.isSome_iff_exists.mp h1
  rw [hfind]
  have hp := List.find?_some hfind
  simp only [] at hp
  show getVal n.props k = some v
  exact hv n (List.mem_of_find?_eq_some hfind) hp (k, v) hmem

/-- The id under which the LOAD_CREATED handler keys the Load node:
payload key id, or load_id as a fallback (Python: data.get(id) or
data.get(load_id)). -/
def loadCreatedId (e : Event) : Val :=
  if (dget e.data "id").truthy then dget e.data "id" else dget e.data "load_id"

theorem handle_load_created_facts (now : String) (e : Event) (g : Graph)
    (ht : (loadCreatedId e).truthy = true) :
    nodeExists (handle_load_created now e g) "Load" (loadCreatedId e).asId = true ∧
    NodeHasVals (handle_load_created now e g) "Load" (loadCreatedId e).asId
      [("customer_id", dget e.data "customer_id"),
       ("pickup_location", dget e.data "pickup_location"),
       ("delivery_location", dget e.data "delivery_location"),
       ("weight", dget e.data "weight"),
       ("status", dgetD e.data "status" (.str "PENDING")),
       ("created_at", Val.str e.timestamp),
       ("updated_at", Val.str now)] ∧
    countNodes (handle_load_created now e g) "Load" (loadCreatedId e).asId =
      (if nodeExists g "Load" (loadCreatedId e).asId then
        countNodes g "Load" (loadCreatedId e).asId
      else countNodes g "Load" (loadCreatedId e).asId + 1) := by
  unfold loadCreatedId at ht ⊢
  set lS := (if (dget e.data "id").truthy then dget e.data "id"
    else dget e.data "load_id").asId with hlS
  set K : Props := [("customer_id", dget e.data "customer_id"),
    ("pickup_location", dget e.data "pickup_location"),
    ("delivery_location", dget e.data "delivery_location"),
    ("weight", dget e.data "weight"),
    ("status", dgetD e.data "status" (.str "PENDING")),
    ("created_at", Val.str e.timestamp),
    ("updated_at", Val.str now)] with hK
  have hndK : (K.map Prod.fst).Nodup := by
    rw [hK]
    show (["customer_id", "pickup_location", "delivery_location", "weight",
      "status", "created_at", "updated_at"] : List String).Nodup
    decide
  by_cases hC : (dget e.data "customer_id").truthy
  · simp only [handle_load_created, ht, hC, Bool.not_true, if_true,
      Bool.false_eq_true, if_false]
    unfold create_customer_load_relationship create_load_node
    refine ⟨?_, ?_, ?_⟩
    · rw [nodeExists_mergeEdgeSet]
      exact nodeExists_upsertNode_self _ _ _ _ _
    · apply hasVals_mergeEdgeSet
      exact hasVals_upsertNode_self _ _ _ _ _ hndK
    · rw [countNodes_of_nodes_eq (nodes_mergeEdgeSet _ _ _ _ _ _ _)]
      by_cases hEx : nodeExists g "Load" lS = true
      · rw [if_pos hEx]
        exact countNodes_upsertNode_of_exists _ _ _ _ _ _ g hEx
      · rw [if_neg hEx]
        exact countNodes_upsertNode_absent _ _ _ _ g (Bool.eq_false_iff.mpr hEx)
  · simp only [handle_load_created, ht, hC, Bool.not_true, if_true,
      Bool.false_eq_true, if_false]
    unfold create_load_node
    refine ⟨?_, ?_, ?_⟩
    · exact nodeExists_upsertNode_self _ _ _ _ _
    · exact hasVals_upsertNode_self _ _ _ _ _ hndK
    · by_cases hEx : nodeExists g "Load" lS = true
      · rw [if_pos hEx]
        exact countNodes_upsertNode_of_exists _ _ _ _ _ _ g hEx
      · rw [if_neg hEx]
        exact countNodes_upsertNode_absent _ _ _ _ g (Bool.eq_false_iff.mpr hEx)

/-- C1: replaying any domain event envelope twice through the graph
synchronizer yields the same graph as applying it once (every mutation is an
idempotent merge or upsert, never an append); in particular, replaying
LOAD_CREATED twice on a graph holding at most one Load node under that id
leaves exactly one Load node carrying the attributes of the last payload. -/
theorem c1_graph_sync_replay_idempotent :
    (∀ (now : String) (e : Event) (g : Graph),
      handle_event now e (handle_event now e g) = handle_event now e g) ∧
    (∀ (now : String) (e : Event) (g : Graph),
      e.event_type = EventType.LOAD_CREATED →
      (loadCreatedId e).truthy = true →
      countNodes g "Load" (loadCreatedId e).asId ≤ 1 →
      countNodes (handle_event now e (handle_event now e g)) "Load"
        (loadCreatedId e).asId = 1 ∧
      getNodeProp (handle_event now e (handle_event now e g)) "Load"
        (loadCreatedId e).asId "customer_id" = some (dget e.data "customer_id") ∧
      getNodeProp (handle_event now e (handle_event now e g)) "Load"
        (loadCreatedId e).asId "pickup_location" =
          some (dget e.data "pickup_location") ∧
      getNodeProp (handle_event now e (handle_event now e g)) "Load"
        (loadCreatedId e).asId "delivery_location" =
          some (dget e.data "delivery_location") ∧
      getNodeProp (handle_event now e (handle_event now e g)) "Load"
        (loadCreatedId e).asId "weight" = some (dget e.data "weight") ∧
      getNodeProp (handle_event now e (handle_event now e g)) "Load"
        (loadCreatedId e).asId "status" =
          some (dgetD e.data "status" (.str "PENDING")) ∧
      getNodeProp (handle_event now e (handle_event now e g)) "Load"
        (loadCreatedId e).asId "created_at" = some (Val.str e.timestamp)) := by
  have hidem : ∀ (now : String) (e : Event) (g : Graph),
      handle_event now e (handle_event now e g) = handle_event now e g := by
    intro now e g
    cases he : e.event_type <;> simp only [handle_event, he] <;>
      first
      | exact handle_load_created_idem now e g
      | exact handle_load_assigned_idem now e g
      | exact handle_load_delivered_idem now e g
      | exact handle_load_cancelled_idem now e g
      | exact handle_vehicle_location_updated_idem e g
      | exact handle_vehicle_assigned_idem now e g
      | exact handle_vehicle_status_changed_idem now e g
      | exact handle_driver_status_changed_idem now e g
      | exact handle_driver_assigned_idem now e g
      | exact handle_driver_location_updated_idem e g
      | exact handle_route_optimized_idem now e g
      | exact handle_route_completed_idem now e g
  refine ⟨hidem, ?_⟩
  intro now e g he ht hcount
  have hred : handle_event now e (handle_event now e g) =
      handle_load_created now e (handle_load_created now e g) := by
    simp only [handle_event, he]
  rw [hred, handle_load_created_idem now e g]
  obtain ⟨hex, hv, hcnt⟩ := handle_load_created_facts now e g ht
  refine ⟨?_, ?_, ?_, ?_, ?_, ?_, ?_⟩
  · rw [hcnt]
    by_cases hEx : nodeExists g "Load" (loadCreatedId e).asId = true
    · rw [if_pos hEx]
      exact le_antisymm hcount (one_le_countNodes_of_exists _ _ g hEx)
    · rw [if_neg hEx]
      rw [countNodes_eq_zero_of_not_exists _ _ g (Bool.eq_false_iff.mpr hEx)]
  · exact getNodeProp_of_hasVals _ _ _ _ _ _ hv hex (by simp)
  · exact getNodeProp_of_hasVals _ _ _ _ _ _ hv hex (by simp)
  · exact getNodeProp_of_hasVals _ _ _ _ _ _ hv hex (by simp)
  · exact getNodeProp_of_hasVals _ _ _ _ _ _ hv hex (by simp)
  · exact getNodeProp_of_hasVals _ _ _ _ _ _ hv hex (by simp)
  · exact getNodeProp_of_hasVals _ _ _ _ _ _ hv hex (by simp)

/-- Concrete LOAD_CREATED envelope used to witness C1. -/
def c1WitnessEvent : Event :=
  ⟨.LOAD_CREATED, "2024-01-01T00:00:00",
    [("id", .str "L1"), ("customer_id", .str "C1"), ("weight", .num 42000),
     ("status", .str "PENDING")]⟩

/-- Witness for C1 at a concrete LOAD_CREATED event over the empty graph. -/
theorem c1_witness :
    countNodes (handle_event "NOW" c1WitnessEvent
      (handle_event "NOW" c1WitnessEvent emptyGraph)) "Load" "L1" = 1 ∧
    getNodeProp (handle_event "NOW" c1WitnessEvent
      (handle_event "NOW" c1WitnessEvent emptyGraph)) "Load" "L1" "weight" =
      some (.num 42000) := by
  have h := c1_graph_sync_replay_idempotent.2 "NOW" c1WitnessEvent emptyGraph
    rfl (by decide) (by decide)
  exact ⟨h.1, h.2.2.2.2.1⟩

theorem matchSetNode_eq_of_not_exists (l i : String) (kvs : Props) (g : Graph)
    (h : nodeExists g l i = false) : matchSetNode l i kvs g = g := by
  apply matchSetNode_eq_of_hasVals
  intro n hn hm
  exfalso
  unfold nodeExists at h
  rw [← Bool.not_eq_true] at h
  exact h (List.any_eq_true.mpr ⟨n, hn, hm⟩)

/-- Concrete VEHICLE_LOCATION_UPDATED envelope for a vehicle id that has
never been seen, the failing input for C2. The latitude and longitude sit
in the payload dictionary, but the handler never reaches them. -/
def c2Event : Event :=
  ⟨.VEHICLE_LOCATION_UPDATED, "2024-01-01T00:00:00",
    [("vehicle_id", .str "V1"), ("latitude", .num 10), ("longitude", .num 20)]⟩

/-- Concrete DRIVER_LOCATION_UPDATED envelope for an unseen driver id. -/
def c2DriverEvent : Event :=
  ⟨.DRIVER_LOCATION_UPDATED, "2024-01-01T00:00:00",
    [("driver_id", .str "D7"), ("latitude", .num 35),
     ("longitude", .num (-97))]⟩

/-- C2: contrary to the claim and the spec, location events never touch
the graph. Both location handlers raise AttributeError on the statement
location = event.location - no event class defines that attribute - and
the catch-all except of handle_event swallows the exception, so every
VEHICLE_LOCATION_UPDATED and DRIVER_LOCATION_UPDATED envelope leaves the
graph exactly as it was: no Vehicle or Driver node is ever created and no
latitude/longitude is ever written. In particular the two concrete
envelopes over the empty graph produce no node at all. -/
theorem c2_location_events_always_no_op :
    (∀ (now ts : String) (d : Props) (g : Graph),
      handle_event now ⟨.VEHICLE_LOCATION_UPDATED, ts, d⟩ g = g) ∧
    (∀ (now ts : String) (d : Props) (g : Graph),
      handle_event now ⟨.DRIVER_LOCATION_UPDATED, ts, d⟩ g = g) ∧
    handle_event "NOW" c2Event emptyGraph = emptyGraph ∧
    nodeExists (handle_event "NOW" c2Event emptyGraph) "Vehicle" "V1" = false ∧
    handle_event "NOW" c2DriverEvent emptyGraph = emptyGraph ∧
    nodeExists (handle_event "NOW" c2DriverEvent emptyGraph) "Driver" "D7" =
      false := by
  refine ⟨?_, ?_, rfl, by decide, rfl, by decide⟩
  · intro now ts d g
    rfl
  · intro now ts d g
    rfl

/-- The three-event failing sequence for C3: a load is created, assigned to
a driver and a vehicle, and then cancelled. -/
def c3LoadCreated : Event :=
  ⟨.LOAD_CREATED, "T1", [("id", .str "L1"), ("customer_id", .str "C1"),
    ("weight", .num 100)]⟩

def c3LoadAssigned : Event :=
  ⟨.LOAD_ASSIGNED, "T2", [("load_id", .str "L1"), ("driver_id", .str "D1"),
    ("vehicle_id", .str "V1")]⟩

def c3LoadCancelled : Event :=
  ⟨.LOAD_CANCELLED, "T3", [("load_id", .str "L1")]⟩

def c3FinalGraph : Graph :=
  applyEvents "NOW" [c3LoadCreated, c3LoadAssigned, c3LoadCancelled] emptyGraph

/-- C3: evaluating the synchronizer on the failing sequence. The Load status
becomes CANCELLED with the terminal timestamp and the Driver, Vehicle and
Load nodes survive, but the ASSIGNED_TO and TRANSPORTS relationships are
still present after cancellation: the deletion query matches relationships
pointing out of the Load node while the assignment relationships point into
it, so remove_load_assignments deletes nothing. -/
theorem c3_cancellation_leaves_assignment_edges :
    getNodeProp c3FinalGraph "Load" "L1" "status" = some (.str "CANCELLED") ∧
    getNodeProp c3FinalGraph "Load" "L1" "cancelled_at" = some (.str "T3") ∧
    nodeExists c3FinalGraph "Driver" "D1" = true ∧
    nodeExists c3FinalGraph "Vehicle" "V1" = true ∧
    nodeExists c3FinalGraph "Load" "L1" = true ∧
    edgeExists c3FinalGraph "ASSIGNED_TO" "Driver" "D1" "Load" "L1" = true ∧
    edgeExists c3FinalGraph "TRANSPORTS" "Vehicle" "V1" "Load" "L1" = true := by
  refine ⟨?_, ?_, ?_, ?_, ?_, ?_, ?_⟩ <;> decide

/-- Optimization constraints with the defaults of
services/advanced_route_optimization.py. -/
structure OptimizationConstraints where
  max_driver_distance_miles : ℚ := 50
  max_route_duration_hours : ℚ := 11
  min_driver_rating : ℚ := 3
  min_carrier_performance : ℚ := 70
  consider_traffic : Bool := true
  allow_multi_load : Bool := false
  max_loads_per_route : Nat := 3
  deriving DecidableEq

/-- One row returned by the candidate-finding Cypher query. -/
structure Candidate where
  driver_id : String
  vehicle_id : String
  distance_miles : ℚ
  vehicle_capacity_weight : ℚ
  vehicle_capacity_volume : ℚ
  hos_remaining : Option ℚ
  carrier_performance : ℚ
  deriving DecidableEq

/-- A scored candidate route (dataclass RouteCandidate of the source). -/
structure RouteCandidate where
  driver_id : String
  vehicle_id : String
  load_ids : List String
  total_distance : ℚ
  total_duration : ℚ
  optimization_score : ℚ
  driver_proximity_score : ℚ
  vehicle_suitability_score : ℚ
  carrier_performance_score : ℚ
  cost_efficiency_score : ℚ
  timeline_feasibility_score : ℚ
  deriving DecidableEq

/-- Proximity sub-score (lines 307-312): linear decay from 100 to 0 over
the maximum distance, zero beyond it. -/
def calculate_proximity_score (distance_miles max_distance : ℚ) : ℚ :=
  if distance_miles > max_distance then 0
  else max 0 (100 * (1 - distance_miles / max_distance))

/-- Vehicle suitability sub-score (lines 314-338). -/
def calculate_vehicle_suitability_score
    (vehicle_weight_capacity vehicle_volume_capacity
      required_weight required_volume : ℚ) : ℚ :=
  if vehicle_weight_capacity < required_weight ∨
      vehicle_volume_capacity < required_volume then 0
  else
    let weight_utilization :=
      if vehicle_weight_capacity > 0 then required_weight / vehicle_weight_capacity
      else 0
    let volume_utilization :=
      if vehicle_volume_capacity > 0 then required_volume / vehicle_volume_capacity
      else 0
    let avg_utilization := (weight_utilization + volume_utilization) / 2
    if 0.6 ≤ avg_utilization ∧ avg_utilization ≤ 0.9 then 100
    else if avg_utilization < 0.6 then 60 + (avg_utilization / 0.6) * 40
    else 100 - (avg_utilization - 0.9) * 200

/-- Carrier performance sub-score (lines 340-343): the on-time percentage
clamped to the range zero to one hundred. -/
def calculate_carrier_performance_score (carrier_performance : ℚ) : ℚ :=
  min 100 (max 0 carrier_performance)

/-- Cost efficiency sub-score (lines 345-351): the distance efficiency term
is clamped below at zero BEFORE the carrier bonus is added, and the sum is
capped above at one hundred. -/
def calculate_cost_efficiency_score (distance_miles carrier_performance : ℚ) : ℚ :=
  min 100 (max 0 (100 - distance_miles) + carrier_performance * 0.3)

/-- Timeline feasibility sub-score (lines 353-371). -/
def calculate_timeline_feasibility_score (hos_remaining : Option ℚ)
    (distance_miles : ℚ) : ℚ :=
  let hos := hos_remaining.getD 11
  let estimated_total_time := distance_miles / 50 + 2
  if estimated_total_time > hos then 0
  else
    let hos_utilization := estimated_total_time / hos
    if hos_utilization ≤ 0.8 then 100 else 100 * (1 - hos_utilization)

/-- The weighted composite of lines 275-281. -/
def compositeScore (proximity vehicle carrier cost timeline : ℚ) : ℚ :=
  proximity * 0.25 + vehicle * 0.20 + carrier * 0.20 + cost * 0.20 +
    timeline * 0.15

/-- Scoring of a single candidate: the body of the loop of
_score_route_candidates (lines 248-297). -/
def score_candidate (c : Candidate) (required_weight required_volume : ℚ)
    (load_id : String) (constraints : OptimizationConstraints) : RouteCandidate :=
  let proximity_score :=
    calculate_proximity_score c.distance_miles constraints.max_driver_distance_miles
  let vehicle_score := calculate_vehicle_suitability_score
    c.vehicle_capacity_weight c.vehicle_capacity_volume
    required_weight required_volume
  let carrier_score := calculate_carrier_performance_score c.carrier_performance
  let cost_score :=
    calculate_cost_efficiency_score c.distance_miles c.carrier_performance
  let timeline_score :=
    calculate_timeline_feasibility_score c.hos_remaining c.distance_miles
  { driver_id := c.driver_id
    vehicle_id := c.vehicle_id
    load_ids := [load_id]
    total_distance := c.distance_miles
    total_duration := c.distance_miles * 2
    optimization_score := compositeScore proximity_score vehicle_score
      carrier_score cost_score timeline_score
    driver_proximity_score := proximity_score
    vehicle_suitability_score := vehicle_score
    carrier_performance_score := carrier_score
    cost_efficiency_score := cost_score
    timeline_feasibility_score := timeline_score }

/-- C6: the composite optimization score produced for every candidate is
the weighted sum 0.25 proximity + 0.20 vehicle + 0.20 carrier + 0.20 cost +
0.15 timeline, the weights sum to one, and the sub-scores
(80, 100, 90, 70, 100) give exactly 87. -/
theorem c6_composite_score_weights :
    (∀ (c : Candidate) (rw0 rv0 : ℚ) (lid : String)
        (constraints : OptimizationConstraints),
      (score_candidate c rw0 rv0 lid constraints).optimization_score =
        0.25 * (score_candidate c rw0 rv0 lid constraints).driver_proximity_score +
        0.20 * (score_candidate c rw0 rv0 lid constraints).vehicle_suitability_score +
        0.20 * (score_candidate c rw0 rv0 lid constraints).carrier_performance_score +
        0.20 * (score_candidate c rw0 rv0 lid constraints).cost_efficiency_score +
        0.15 * (score_candidate c rw0 rv0 lid constraints).timeline_feasibility_score) ∧
    ((0.25 : ℚ) + 0.20 + 0.20 + 0.20 + 0.15 = 1) ∧
    compositeScore 80 100 90 70 100 = 20 + 20 + 18 + 14 + 15 ∧
    compositeScore 80 100 90 70 100 = 87 := by
  refine ⟨?_, by norm_num, by norm_num [compositeScore], by norm_num [compositeScore]⟩
  intro c rw0 rv0 lid constraints
  simp only [score_candidate, compositeScore]
  ring

/-- C7 counterexample: at distance 200 and carrier performance 0 the code
yields 0, not the negative value min 100 ((100 - 200) + 0.3 times 0) = -100
demanded by the claim, because the distance term is clamped at zero before
the bonus is added. -/
theorem c7_counterexample :
    calculate_cost_efficiency_score 200 0 = 0 ∧
    ¬ (calculate_cost_efficiency_score 200 0 =
        min 100 ((100 - 200) + 0.3 * 0)) := by
  constructor
  · norm_num [calculate_cost_efficiency_score]
  · norm_num [calculate_cost_efficiency_score]

/-- C7 amended: the cost-efficiency sub-score equals
min 100 (max 0 (100 - distance) + 0.3 times performance); for every
nonnegative carrier performance the sub-score is nonnegative, so it cannot
go negative for large distances. -/
theorem c7_cost_efficiency_clamped :
    (∀ d p : ℚ, calculate_cost_efficiency_score d p =
      min 100 (max 0 (100 - d) + 0.3 * p)) ∧
    (∀ d p : ℚ, 0 ≤ p → 0 ≤ calculate_cost_efficiency_score d p) := by
  constructor
  · intro d p
    unfold calculate_cost_efficiency_score
    rw [mul_comm p (0.3 : ℚ)]
  · intro d p hp
    unfold calculate_cost_efficiency_score
    refine le_min (by norm_num) ?_
    have h1 : (0 : ℚ) ≤ max 0 (100 - d) := le_max_left 0 (100 - d)
    have h2 : (0 : ℚ) ≤ p * 0.3 := by positivity
    linarith

/-- Witness for the amended C7 at distance 200, performance 0. -/
theorem c7_witness :
    (0 : ℚ) ≤ calculate_cost_efficiency_score 200 0 ∧
    calculate_cost_efficiency_score 200 0 =
      min 100 (max 0 (100 - 200) + 0.3 * 0) := by
  exact ⟨c7_cost_efficiency_clamped.2 200 0 (le_refl 0),
    c7_cost_efficiency_clamped.1 200 0⟩

/-- The route dictionary produced by the route calculators of
services/route_optimization.py, as consumed by the publisher. The numeric
fields are exact rationals standing for the Python floats. -/
structure RouteData where
  distance_miles : ℚ
  duration_minutes : ℚ
  duration_in_traffic_minutes : ℚ
  route_geometry : String
  encoded_polyline : Val
  steps_count : Nat
  optimization_score : ℚ
  traffic_considered : Bool
  deriving DecidableEq

/-- The data payload built by
RouteOptimizationService._publish_route_optimized_event (lines 217-240).
The route dictionaries never contain a straight_line_distance key, so
route_data.get with that key always falls back to distance_miles. Note the
payload carries load_ids, optimized_distance and original_distance, but no
load_id, distance or duration key. -/
def publishRouteOptimizedData (route_id load_id : String)
    (driver_id : Option String) (vehicle_id : String) (rd : RouteData) : Props :=
  [("route_id", .str route_id),
   ("load_ids", .vlist [load_id]),
   ("vehicle_id", .str vehicle_id),
   ("driver_id", match driver_id with | some d => .str d | none => .null),
   ("original_distance", .num rd.distance_miles),
   ("optimized_distance", .num rd.distance_miles),
   ("time_saved", .num 0),
   ("fuel_saved", .num 0),
   ("algorithm_used", .str "google_maps_api"),
   ("optimization_score", .num rd.optimization_score),
   ("traffic_considered", .bool rd.traffic_considered),
   ("steps_count", .num rd.steps_count),
   ("encoded_polyline", rd.encoded_polyline)]

/-- The ROUTE_OPTIMIZED envelope as published. -/
def routeOptimizedEnvelope (ts route_id load_id : String)
    (driver_id : Option String) (vehicle_id : String) (rd : RouteData) : Event :=
  ⟨.ROUTE_OPTIMIZED, ts, publishRouteOptimizedData route_id load_id driver_id
    vehicle_id rd⟩

theorem filter_map_invariant {α : Type} (f : α → α) (p : α → Bool)
    (h1 : ∀ a, p (f a) = p a) (h2 : ∀ a, p a = true → f a = a) (l : List α) :
    (l.map f).filter p = l.filter p := by
  induction l with
  | nil => rfl
  | cons a rest ih =>
      simp only [List.map_cons, List.filter_cons, h1 a]
      by_cases hp : p a
      · rw [if_pos hp, if_pos hp, h2 a hp, ih]
      · rw [if_neg hp, if_neg hp, ih]

theorem filter_relType_mergeEdgeSet_ne (t t' fl fi tl ti : String)
    (kvs : Props) (g : Graph) (hne : t' ≠ t) :
    ((mergeEdgeSet t' fl fi tl ti kvs g).edges.filter fun e => e.relType == t) =
      g.edges.filter fun e => e.relType == t := by
  have hstep : ∀ es : List Edge,
      ((es.map fun e => if edgeMatches e t' fl fi tl ti then
          { e with props := setVals e.props kvs } else e).filter
        fun e => e.relType == t) = es.filter fun e => e.relType == t := by
    intro es
    apply filter_map_invariant
    · intro a
      split <;> rfl
    · intro a hpa
      have hat : a.relType = t := by simpa using hpa
      rw [if_neg ?_]
      rw [show edgeMatches a t' fl fi tl ti = false from
        edgeMatches_ne_relType hne.symm hat]
      simp
  unfold mergeEdgeSet
  by_cases hend : (nodeExists g fl fi && nodeExists g tl ti) = true
  · rw [if_pos hend]
    by_cases hex : edgeExists g t' fl fi tl ti = true
    · rw [if_pos hex]
      exact hstep g.edges
    · rw [if_neg hex]
      show (((g.edges ++ [(⟨t', fl, fi, tl, ti, []⟩ : Edge)]).map fun e =>
          if edgeMatches e t' fl fi tl ti then
            { e with props := setVals e.props kvs } else e).filter
          fun e => e.relType == t) = _
      rw [List.map_append, List.filter_append, hstep g.edges]
      have hnil : (([(⟨t', fl, fi, tl, ti, []⟩ : Edge)].map fun e =>
          if edgeMatches e t' fl fi tl ti then
            { e with props := setVals e.props kvs } else e).filter
          fun e => e.relType == t) = [] := by
        simp only [List.map_cons, List.map_nil, edgeMatches_self, if_true]
        simp [hne]
      rw [hnil, List.append_nil]
  · rw [if_neg hend]

theorem filter_relType_upsertNode (t l i : String) (oc kvs : Props) (g : Graph) :
    ((upsertNode l i oc kvs g).edges.filter fun e => e.relType == t) =
      g.edges.filter fun e => e.relType == t := by
  rw [nodes_upsertNode]

/-- C5: handling the ROUTE_OPTIMIZED envelope published by
_publish_route_optimized_event creates the Route node with both distance
and duration set to null (the handler reads the keys distance and duration
which the payload does not carry) and merges no OPTIMIZES edge to any load
(the handler reads load_id while the payload carries only load_ids). -/
theorem c5_route_optimized_payload_mismatch (now ts route_id load_id : String)
    (driver_id : Option String) (vehicle_id : String) (rd : RouteData)
    (g : Graph) (hrid : route_id ≠ "") :
    getNodeProp (handle_event now
        (routeOptimizedEnvelope ts route_id load_id driver_id vehicle_id rd) g)
      "Route" route_id "distance" = some .null ∧
    getNodeProp (handle_event now
        (routeOptimizedEnvelope ts route_id load_id driver_id vehicle_id rd) g)
      "Route" route_id "duration" = some .null ∧
    ((handle_event now
        (routeOptimizedEnvelope ts route_id load_id driver_id vehicle_id rd)
        g).edges.filter fun e => e.relType == "OPTIMIZES") =
      g.edges.filter fun e => e.relType == "OPTIMIZES" := by
  have h1 : dget (publishRouteOptimizedData route_id load_id driver_id
      vehicle_id rd) "route_id" = .str route_id := rfl
  have h2 : dget (publishRouteOptimizedData route_id load_id driver_id
      vehicle_id rd) "load_id" = .null := rfl
  have h3 : dget (publishRouteOptimizedData route_id load_id driver_id
      vehicle_id rd) "distance" = .null := rfl
  have h4 : dget (publishRouteOptimizedData route_id load_id driver_id
      vehicle_id rd) "duration" = .null := rfl
  have htr : (Val.str route_id).truthy = true := by
    simp [Val.truthy, hrid]
  have hnull : (Val.null).truthy = false := rfl
  show getNodeProp (handle_route_optimized now
      (routeOptimizedEnvelope ts route_id load_id driver_id vehicle_id rd) g)
        "Route" route_id "distance" = some .null ∧
    getNodeProp (handle_route_optimized now
      (routeOptimizedEnvelope ts route_id load_id driver_id vehicle_id rd) g)
        "Route" route_id "duration" = some .null ∧
    ((handle_route_optimized now
      (routeOptimizedEnvelope ts route_id load_id driver_id vehicle_id rd)
        g).edges.filter fun e => e.relType == "OPTIMIZES") =
      g.edges.filter fun e => e.relType == "OPTIMIZES"
  simp only [handle_route_optimized, routeOptimizedEnvelope, h1, h2, h3, h4,
    htr, hnull, Bool.not_true, if_true, Bool.false_eq_true, if_false,
    Val.asId]
  unfold create_route_node create_route_driver_relationship
    create_route_vehicle_relationship
  set KR : Props := [("load_id", Val.null), ("distance", Val.null),
    ("duration", Val.null),
    ("optimized_at", Val.str ts), ("status", Val.str "ACTIVE"),
    ("updated_at", Val.str now)] with hKR
  set G1 := upsertNode "Route" route_id [] KR g with hG1
  have hndK : (KR.map Prod.fst).Nodup := by
    rw [hKR]
    show (["load_id", "distance", "duration", "optimized_at", "status",
      "updated_at"] : List String).Nodup
    decide
  have hexG1 : nodeExists G1 "Route" route_id = true := by
    rw [hG1]
    exact nodeExists_upsertNode_self _ _ _ _ _
  have hvG1 : NodeHasVals G1 "Route" route_id KR := by
    rw [hG1]
    exact hasVals_upsertNode_self _ _ _ _ _ hndK
  by_cases hdid : (dget (publishRouteOptimizedData route_id load_id driver_id
      vehicle_id rd) "driver_id").truthy
  · by_cases hvid : (dget (publishRouteOptimizedData route_id load_id driver_id
        vehicle_id rd) "vehicle_id").truthy
    · simp only [hdid, hvid, if_true]
      refine ⟨?_, ?_, ?_⟩
      · exact getNodeProp_of_hasVals _ _ _ _ _ KR
          (hasVals_mergeEdgeSet _ _ _ _ _ _ _ _ _ _
            (hasVals_mergeEdgeSet _ _ _ _ _ _ _ _ _ _ hvG1))
          (by rw [nodeExists_mergeEdgeSet, nodeExists_mergeEdgeSet]; exact hexG1)
          (by simp [hKR])
      · exact getNodeProp_of_hasVals _ _ _ _ _ KR
          (hasVals_mergeEdgeSet _ _ _ _ _ _ _ _ _ _
            (hasVals_mergeEdgeSet _ _ _ _ _ _ _ _ _ _ hvG1))
          (by rw [nodeExists_mergeEdgeSet, nodeExists_mergeEdgeSet]; exact hexG1)
          (by simp [hKR])
      · rw [filter_relType_mergeEdgeSet_ne _ _ _ _ _ _ _ _
            (show "USES_VEHICLE" ≠ "OPTIMIZES" by decide),
          filter_relType_mergeEdgeSet_ne _ _ _ _ _ _ _ _
            (show "EXECUTED_BY" ≠ "OPTIMIZES" by decide),
          hG1, filter_relType_upsertNode]
    · simp only [hdid, hvid, if_true, Bool.false_eq_true, if_false]
      refine ⟨?_, ?_, ?_⟩
      · exact getNodeProp_of_hasVals _ _ _ _ _ KR
          (hasVals_mergeEdgeSet _ _ _ _ _ _ _ _ _ _ hvG1)
          (by rw [nodeExists_mergeEdgeSet]; exact hexG1)
          (by simp [hKR])
      · exact getNodeProp_of_hasVals _ _ _ _ _ KR
          (hasVals_mergeEdgeSet _ _ _ _ _ _ _ _ _ _ hvG1)
          (by rw [nodeExists_mergeEdgeSet]; exact hexG1)
          (by simp [hKR])
      · rw [filter_relType_mergeEdgeSet_ne _ _ _ _ _ _ _ _
            (show "EXECUTED_BY" ≠ "OPTIMIZES" by decide),
          hG1, filter_relType_upsertNode]
  · by_cases hvid : (dget (publishRouteOptimizedData route_id load_id driver_id
        vehicle_id rd) "vehicle_id").truthy
    · simp only [hdid, hvid, if_true, Bool.false_eq_true, if_false]
      refine ⟨?_, ?_, ?_⟩
      · exact getNodeProp_of_hasVals _ _ _ _ _ KR
          (hasVals_mergeEdgeSet _ _ _ _ _ _ _ _ _ _ hvG1)
          (by rw [nodeExists_mergeEdgeSet]; exact hexG1)
          (by simp [hKR])
      · exact getNodeProp_of_hasVals _ _ _ _ _ KR
          (hasVals_mergeEdgeSet _ _ _ _ _ _ _ _ _ _ hvG1)
          (by rw [nodeExists_mergeEdgeSet]; exact hexG1)
          (by simp [hKR])
      · rw [filter_relType_mergeEdgeSet_ne _ _ _ _ _ _ _ _
            (show "USES_VEHICLE" ≠ "OPTIMIZES" by decide),
          hG1, filter_relType_upsertNode]
    · simp only [hdid, hvid, Bool.false_eq_true, if_false]
      refine ⟨?_, ?_, ?_⟩
      · exact getNodeProp_of_hasVals _ _ _ _ _ KR hvG1 hexG1 (by simp [hKR])
      · exact getNodeProp_of_hasVals _ _ _ _ _ KR hvG1 hexG1 (by simp [hKR])
      · rw [hG1, filter_relType_upsertNode]

/-- Witness for C5 at concrete inputs. -/
theorem c5_witness :
    getNodeProp (handle_event "NOW"
        (routeOptimizedEnvelope "TS" "R1" "L1" (some "D1") "V1"
          ⟨120, 240, 300, "LINESTRING(0 0, 1 1)", .null, 0, 70, true⟩)
        emptyGraph) "Route" "R1" "distance" = some .null := by
  exact (c5_route_optimized_payload_mismatch "NOW" "TS" "R1" "L1" (some "D1")
    "V1" ⟨120, 240, 300, "LINESTRING(0 0, 1 1)", .null, 0, 70, true⟩
    emptyGraph (by decide)).1

/-- The _handlers dictionary of TMSEventConsumer: event type to list of
registered handler callables, in insertion order (Python dicts preserve
it). A handler acts on an abstract state; a call returns the successor
state together with the exception message it raised, if any (none means
the await completed normally). -/
abbrev HandlerMap (σ : Type) : Type :=
  List (EventType × List (σ → σ × Option String))

/-- Dictionary lookup self._handlers.get(event.event_type, []) used by
_handle_event (line 149). -/
def handlersFor {σ : Type} (m : HandlerMap σ) (t : EventType) :
    List (σ → σ × Option String) :=
  match m.find? (fun q => decide (q.1 = t)) with
  | none => []
  | some q => q.2

/-- TMSEventConsumer.register_handler (lines 94-99): create the key with
an empty list when absent, then append the handler to that list. -/
def register_handler {σ : Type} (m : HandlerMap σ) (t : EventType)
    (h : σ → σ × Option String) : HandlerMap σ :=
  if m.any (fun q => decide (q.1 = t)) then
    m.map (fun q => if q.1 = t then (q.1, q.2 ++ [h]) else q)
  else
    m ++ [(t, [h])]

/-- The for-loop of _handle_event (lines 155-160): each handler is
awaited in turn on the current state; an exception is caught, logged, and
the loop continues with the remaining handlers. Returns the final state
and the per-handler outcome list, one entry per handler in order (none =
completed, some e = the exception message that was logged). -/
def runHandlers {σ : Type} (hs : List (σ → σ × Option String)) (s : σ) :
    σ × List (Option String) :=
  match hs with
  | [] => (s, [])
  | h :: rest =>
      let r := h s
      let q := runHandlers rest r.1
      (q.1, r.2 :: q.2)

/-- TMSEventConsumer._handle_event (lines 147-160): fetch the handlers
for the event type; when the list is empty, log at debug level and return
with the state untouched and nothing logged as an error (the Boolean
records the debug-level drop); otherwise run every registered handler. -/
def consumer_dispatch {σ : Type} (m : HandlerMap σ) (t : EventType)
    (s : σ) : σ × List (Option String) × Bool :=
  let handlers := handlersFor m t
  if handlers.isEmpty then (s, [], true)
  else
    let r := runHandlers handlers s
    (r.1, r.2, false)

theorem handlersFor_of_any_false {σ : Type} (m : HandlerMap σ)
    (t : EventType) (ha : m.any (fun q => decide (q.1 = t)) = false) :
    handlersFor m t = [] := by
  induction m with
  | nil => rfl
  | cons p ps ih =>
      simp only [List.any_cons, Bool.or_eq_false_iff] at ha
      unfold handlersFor
      rw [List.find?_cons_of_neg _ (by simp [ha.1])]
      exact ih ha.2

theorem handlersFor_append_new {σ : Type} (m : HandlerMap σ)
    (t : EventType) (h : σ → σ × Option String)
    (ha : m.any (fun q => decide (q.1 = t)) = false) :
    handlersFor (m ++ [(t, [h])]) t = [h] := by
  induction m with
  | nil => simp [handlersFor, List.find?]
  | cons p ps ih =>
      simp only [List.any_cons, Bool.or_eq_false_iff] at ha
      unfold handlersFor
      rw [List.cons_append, List.find?_cons_of_neg _ (by simp [ha.1])]
      exact ih ha.2

theorem handlersFor_map_update {σ : Type} (m : HandlerMap σ)
    (t : EventType) (h : σ → σ × Option String)
    (ha : m.any (fun q => decide (q.1 = t)) = true) :
    handlersFor (m.map (fun q => if q.1 = t then (q.1, q.2 ++ [h]) else q)) t =
      handlersFor m t ++ [h] := by
  induction m with
  | nil => simp at ha
  | cons p ps ih =>
      by_cases hp : p.1 = t
      · unfold handlersFor
        rw [List.map_cons, if_pos hp,
          List.find?_cons_of_pos _ (by simpa using hp),
          List.find?_cons_of_pos _ (by simpa using hp)]
      · have ha2 : ps.any (fun q => decide (q.1 = t)) = true := by
          simpa [List.any_cons, hp] using ha
        unfold handlersFor
        rw [List.map_cons, if_neg hp,
          List.find?_cons_of_neg _ (by simpa using hp),
          List.find?_cons_of_neg _ (by simpa using hp)]
        exact ih ha2

/-- C9: the consumer dispatch (a) appends each registered handler to the
end of its event type's list, so handlers run in registration order; (b)
produces one outcome per registered handler - a handler that raises is
logged and does not prevent the invocation of the remaining handlers; (c)
the final state is the left fold of all the handlers' state effects in
registration order, regardless of which of them raised; (d) an event
whose type has no registered handler is dropped at debug level with the
state untouched and no error logged; (e) an event with handlers is not
flagged as dropped. -/
theorem c9_dispatch_order_and_error_isolation :
    (∀ (σ : Type) (m : HandlerMap σ) (t : EventType)
        (h : σ → σ × Option String),
      handlersFor (register_handler m t h) t = handlersFor m t ++ [h]) ∧
    (∀ (σ : Type) (hs : List (σ → σ × Option String)) (s : σ),
      (runHandlers hs s).2.length = hs.length) ∧
    (∀ (σ : Type) (hs : List (σ → σ × Option String)) (s : σ),
      (runHandlers hs s).1 = hs.foldl (fun st h => (h st).1) s) ∧
    (∀ (σ : Type) (m : HandlerMap σ) (t : EventType) (s : σ),
      handlersFor m t = [] → consumer_dispatch m t s = (s, [], true)) ∧
    (∀ (σ : Type) (m : HandlerMap σ) (t : EventType) (s : σ),
      handlersFor m t ≠ [] → (consumer_dispatch m t s).2.2 = false) := by
  refine ⟨?_, ?_, ?_, ?_, ?_⟩
  · intro σ m t h
    unfold register_handler
    by_cases ha : m.any (fun q => decide (q.1 = t)) = true
    · rw [if_pos ha]
      exact handlersFor_map_update m t h ha
    · rw [if_neg ha]
      rw [handlersFor_append_new m t h (Bool.not_eq_true _ ▸ ha),
        handlersFor_of_any_false m t (Bool.not_eq_true _ ▸ ha)]
      rfl
  · intro σ hs
    induction hs with
    | nil => intro s; rfl
    | cons h rest ih =>
        intro s
        simp only [runHandlers, List.length_cons]
        rw [ih]
  · intro σ hs
    induction hs with
    | nil => intro s; rfl
    | cons h rest ih =>
        intro s
        simp only [runHandlers, List.foldl_cons]
        exact ih _
  · intro σ m t s he
    simp [consumer_dispatch, he]
  · intro σ m t s he
    cases hs : handlersFor m t with
    | nil => exact absurd hs he
    | cons a l => simp [consumer_dispatch, hs]

/-- A concrete handler that always raises, used in the C9 witness. -/
def c9Handler : Nat → Nat × Option String := fun n => (n + 1, some "boom")

/-- Witness for C9 at concrete inputs: an unregistered event type is
dropped at debug level with the state untouched, and once a handler is
registered the event is no longer dropped. -/
theorem c9_witness :
    consumer_dispatch ([] : HandlerMap Nat) EventType.LOAD_CREATED 0 =
      (0, [], true) ∧
    (consumer_dispatch
      (register_handler ([] : HandlerMap Nat) EventType.LOAD_CREATED c9Handler)
      EventType.LOAD_CREATED 0).2.2 = false := by
  constructor
  · exact c9_dispatch_order_and_error_isolation.2.2.2.1 Nat []
      EventType.LOAD_CREATED 0 rfl
  · refine c9_dispatch_order_and_error_isolation.2.2.2.2 Nat _
      EventType.LOAD_CREATED 0 ?_
    intro hcon
    have hval : handlersFor
        (register_handler ([] : HandlerMap Nat) EventType.LOAD_CREATED
          c9Handler) EventType.LOAD_CREATED = [c9Handler] := rfl
    rw [hval] at hcon
    exact List.cons_ne_nil _ _ hcon

/-- math.radians: degrees to radians. -/
noncomputable def radians (deg : ℝ) : ℝ := deg * (Real.pi / 180)

/-- Python round(x, 2): round to two decimal places. Python rounds ties
to even; the values proved about below are bounded strictly away from
ties, where banker rounding and round-half-up coincide. -/
noncomputable def round2 (x : ℝ) : ℝ := ((round (100 * x) : ℤ) : ℝ) / 100

/-- The dictionary returned by _calculate_straight_line_route. The
LINESTRING geometry is represented by its ordered coordinate pairs
(longitude, latitude), as formatted into the string by the code. -/
structure StraightLineRoute where
  distance_miles : ℝ
  duration_minutes : ℤ
  duration_in_traffic_minutes : ℤ
  route_geometry : List (ℝ × ℝ)
  encoded_polyline : Val
  steps : List Val
  optimization_score : ℝ
  traffic_considered : Bool

/-- RouteOptimizationService._calculate_straight_line_route (lines
126-153): haversine distance on an Earth radius of 3959 miles, duration
estimates from the unrounded distance, a two-point straight-line
geometry, the fixed neutral score 50.0 and traffic_considered False. -/
noncomputable def calculate_straight_line_route (pickup delivery : ℝ × ℝ) :
    StraightLineRoute :=
  let lat1 := radians pickup.1
  let lon1 := radians pickup.2
  let lat2 := radians delivery.1
  let lon2 := radians delivery.2
  let dlat := lat2 - lat1
  let dlon := lon2 - lon1
  let a := Real.sin (dlat / 2) ^ 2 +
    Real.cos lat1 * Real.cos lat2 * Real.sin (dlon / 2) ^ 2
  let c := 2 * Real.arcsin (Real.sqrt a)
  let distance_miles := 3959 * c
  { distance_miles := round2 distance_miles
    duration_minutes := round (distance_miles * 2)
    duration_in_traffic_minutes := round (distance_miles * 2.5)
    route_geometry := [(pickup.2, pickup.1), (delivery.2, delivery.1)]
    encoded_polyline := Val.null
    steps := []
    optimization_score := 50
    traffic_considered := false }

theorem c10_distance_val :
    (2 : ℝ) * Real.arcsin (Real.sqrt (Real.sin ((radians 0 - radians 0) / 2) ^ 2 +
      Real.cos (radians 0) * Real.cos (radians 0) *
        Real.sin ((radians 1 - radians 0) / 2) ^ 2)) = Real.pi / 180 := by
  have hpi := Real.pi_pos
  have h0 : radians 0 = 0 := by simp [radians]
  have h1 : radians 1 = Real.pi / 180 := by simp [radians]
  rw [h0, h1]
  have e0 : ((0 - 0 : ℝ) / 2) = 0 := by ring
  have e1 : ((Real.pi / 180 - 0) / 2 : ℝ) = Real.pi / 360 := by ring
  rw [e0, e1, Real.sin_zero, Real.cos_zero]
  have hnn : 0 ≤ Real.sin (Real.pi / 360) :=
    Real.sin_nonneg_of_nonneg_of_le_pi (by linarith) (by linarith)
  rw [show (0 : ℝ) ^ 2 + 1 * 1 * Real.sin (Real.pi / 360) ^ 2 =
    Real.sin (Real.pi / 360) ^ 2 by ring]
  rw [Real.sqrt_sq hnn, Real.arcsin_sin (by linarith) (by linarith)]
  ring

theorem c10_round_distance :
    round ((100 : ℝ) * (3959 * (Real.pi / 180))) = 6910 := by
  have hl := Real.pi_gt_d6
  have hu := Real.pi_lt_d6
  rw [round_eq, Int.floor_eq_iff]
  constructor
  · push_cast
    nlinarith
  · push_cast
    nlinarith

theorem c10_round_duration :
    round ((3959 : ℝ) * (Real.pi / 180) * 2) = 138 := by
  have hl := Real.pi_gt_d6
  have hu := Real.pi_lt_d6
  rw [round_eq, Int.floor_eq_iff]
  constructor
  · push_cast
    nlinarith
  · push_cast
    nlinarith

theorem c10_round_traffic :
    round ((3959 : ℝ) * (Real.pi / 180) * 2.5) = 173 := by
  have hl := Real.pi_gt_d6
  have hu := Real.pi_lt_d6
  have h25 : (2.5 : ℝ) = 5 / 2 := by norm_num
  rw [h25, round_eq, Int.floor_eq_iff]
  constructor
  · push_cast
    nlinarith
  · push_cast
    nlinarith

theorem c10_distance_field :
    (calculate_straight_line_route ((0 : ℝ), (0 : ℝ))
      ((0 : ℝ), (1 : ℝ))).distance_miles = 691 / 10 := by
  simp only [calculate_straight_line_route]
  rw [c10_distance_val]
  unfold round2
  rw [show (100 : ℝ) * (3959 * (Real.pi / 180)) =
    100 * (3959 * (Real.pi / 180)) from rfl, c10_round_distance]
  norm_num

theorem c10_duration_field :
    (calculate_straight_line_route ((0 : ℝ), (0 : ℝ))
      ((0 : ℝ), (1 : ℝ))).duration_minutes = 138 := by
  simp only [calculate_straight_line_route]
  rw [c10_distance_val]
  exact c10_round_duration

theorem c10_traffic_field :
    (calculate_straight_line_route ((0 : ℝ), (0 : ℝ))
      ((0 : ℝ), (1 : ℝ))).duration_in_traffic_minutes = 173 := by
  simp only [calculate_straight_line_route]
  rw [c10_distance_val]
  exact c10_round_traffic

/-- C10 counterexample: for pickup (0,0) and delivery (0,1) the fallback
distance is 69.10 miles (3959 times pi over 180, rounded to 2 decimals),
not approximately 69.17 as claimed - the gap exceeds 0.05 miles, beyond
any rounding tolerance of the 2-decimal result. -/
theorem c10_counterexample :
    (calculate_straight_line_route ((0 : ℝ), (0 : ℝ))
      ((0 : ℝ), (1 : ℝ))).distance_miles = 691 / 10 ∧
    ¬ |(691 : ℝ) / 10 - 6917 / 100| < 1 / 20 := by
  refine ⟨c10_distance_field, ?_⟩
  rw [abs_sub_lt_iff]
  intro h
  have := h.2
  norm_num at this

/-- C10 (amended): whenever the mapping service fails, the fallback route
always carries optimization_score 50.0, traffic_considered false, an
empty step list, no encoded polyline and the two-point straight-line
geometry; for pickup (0,0) and delivery (0,1) the haversine distance on
radius 3959 rounds to 69.10 miles (not 69.17), the duration to 138
minutes and the traffic duration to 173 minutes. -/
theorem c10_straight_line_fallback :
    (∀ pickup delivery : ℝ × ℝ,
      (calculate_straight_line_route pickup delivery).optimization_score = 50 ∧
      (calculate_straight_line_route pickup delivery).traffic_considered = false ∧
      (calculate_straight_line_route pickup delivery).steps = [] ∧
      (calculate_straight_line_route pickup delivery).encoded_polyline = Val.null ∧
      (calculate_straight_line_route pickup delivery).route_geometry =
        [(pickup.2, pickup.1), (delivery.2, delivery.1)]) ∧
    (calculate_straight_line_route ((0 : ℝ), (0 : ℝ))
      ((0 : ℝ), (1 : ℝ))).distance_miles = 691 / 10 ∧
    (calculate_straight_line_route ((0 : ℝ), (0 : ℝ))
      ((0 : ℝ), (1 : ℝ))).duration_minutes = 138 ∧
    (calculate_straight_line_route ((0 : ℝ), (0 : ℝ))
      ((0 : ℝ), (1 : ℝ))).duration_in_traffic_minutes = 173 := by
  refine ⟨?_, c10_distance_field, c10_duration_field, c10_traffic_field⟩
  intro pickup delivery
  refine ⟨rfl, rfl, rfl, rfl, rfl⟩

end TMS
